import Mathlib

/-!
Shallow embedding of `utils/cluster_manager.py` (valkey-glide), the cluster
lifecycle orchestrator: port allocation, server launch, log polling, liveness
probing, topology formation and teardown.

Modelling conventions, used uniformly below:
* Wall-clock polling loops (`while time.time() < start + timeout`) are modelled
  with an explicit fuel argument counting the remaining poll ticks; a poll tick
  corresponds to one body iteration of the Python loop, and fuel exhaustion is
  the timeout branch of the source.
* The outside world (file contents as observed at successive poll ticks,
  subprocess outcomes, free ports found by `next_free_port`, the arbitrary
  order in which Python's `set.pop` yields elements) is an explicit `Env` of
  oracle functions; the orchestrator code itself is translated statement by
  statement from the source.
* Python exceptions are `Except String`; the side effects of a run (folders
  created and removed, processes spawned, CLI commands issued) are recorded in
  an event trace `List Ev`.
* Python's `needle in haystack` substring test is `strContains`,
  `str.count` is `countSub`, `str.strip` is `pyStrip`,
  `str.split` is `pySplit`, `str.splitlines` is `pySplitlines`.
-/

/-- Python `needle in haystack` (substring containment), as a Bool. -/
def strContains (haystack needle : String) : Bool :=
  decide (needle.data <:+: haystack.data)

/-- Count of non-overlapping occurrences of a nonempty pattern, Python
`haystack.count(needle)` (for the empty pattern we return 0; the source only
counts nonempty host strings).  The `skip` argument carries how many
characters of a just-counted match remain to be stepped over, making the
recursion structural on the text. -/
def countSubList (pat : List Char) : List Char → Nat → Nat
  | [], _ => 0
  | _ :: rest, skip + 1 => countSubList pat rest skip
  | c :: rest, 0 =>
    if pat ≠ [] ∧ pat <+: (c :: rest) then
      1 + countSubList pat rest (pat.length - 1)
    else
      countSubList pat rest 0

/-- Python `haystack.count(needle)`. -/
def countSub (haystack needle : String) : Nat :=
  countSubList needle.data haystack.data 0

/-- Python whitespace, for `str.strip()` with no argument. -/
def isPySpace (c : Char) : Bool :=
  c = ' ' || c = '\t' || c = '\n' || c = '\r' || c = '\x0b' || c = '\x0c'

/-- Python `str.strip()`. -/
def pyStrip (s : String) : String :=
  String.mk (((s.data.dropWhile isPySpace).reverse.dropWhile isPySpace).reverse)

/-- Split a character list at every occurrence of `sep`, keeping empty
segments. -/
def splitOnChar (sep : Char) : List Char → List (List Char)
  | [] => [[]]
  | c :: rest =>
    if c = sep then [] :: splitOnChar sep rest
    else
      match splitOnChar sep rest with
      | [] => [[c]]
      | h :: t => (c :: h) :: t

/-- Python `str.split(sep)` for a one-character separator (keeps empty
segments, as Python does). -/
def pySplit (sep : Char) (s : String) : List String :=
  (splitOnChar sep s.data).map fun l => String.mk l

/-- Python `str.splitlines()` over the newline-separated logs at hand: like
splitting on the newline character, except a trailing final newline does not
produce a trailing empty line. -/
def pySplitlines (s : String) : List String :=
  let parts := pySplit '\n' s
  if parts.getLastD "" = "" then parts.dropLast else parts

/-- Python `int(s)` for the all-digit strings this tool parses (the pid regex
group and the digit-named node directories). -/
def digitsToNat (l : List Char) : Nat :=
  l.foldl (fun acc c => acc * 10 + (c.toNat - 48)) 0

/-- Python `os.path.basename(os.path.normpath(p))` for the plain
slash-separated paths this tool builds (no trailing slash, no dot segments). -/
def baseName (p : String) : String :=
  (pySplit '/' p).getLastD ""

/-- The `Server` class: one launched node.  `pid` is -1 until discovered from
the log, `is_primary` is initialised to True by `Server.__init__`. -/
structure Server where
  host : String
  port : Nat
  pid : Int
  is_primary : Bool
deriving DecidableEq, Repr

/-- Result of one subprocess `communicate(timeout=...)` call: captured stdout
and stderr, or `subprocess.TimeoutExpired`. -/
inductive CmdRes where
  | res (out err : String)
  | timedOut
deriving DecidableEq, Repr

/-- One PING probe during shutdown confirmation: stdout plus return code, or a
`communicate` timeout. -/
inductive ProbeRes where
  | res (out : String) (retcode : Int)
  | timedOut
deriving DecidableEq, Repr

/-- Observable side effects of a run. -/
inductive Ev where
  | createFolder (path : String)
  | allocPort (launch : Nat) (port : Nat)
  | mkNodeDir (path : String)
  | spawn (launch : Nat) (port : Nat)
  | removeDir (path : String)
  | tlsGenerate
  | clusterCreate (ports : List Nat) (replicas : Nat)
  | replicaOf (rhost : String) (rport : Nat) (phost : String) (pport : Nat)
  | shutdownCmd (host : String) (port : Nat)
deriving DecidableEq, Repr

/-- State of the TLS certificate cache directory, as the filesystem presents
it to `should_generate_new_tls_certs`: whether `TLS_FOLDER` already exists,
whether each certificate file exists (the eventual answer of the 15s wait in
`check_if_tls_cert_exist`), and each file's age in days as computed from its
mtime (negative if the mtime is in the future). -/
structure TlsState where
  folderExists : Bool
  fileExists : String → Bool
  ageDays : String → Int

/-- Placeholder for the process-wide `TLS_FOLDER` path (derived from
environment variables at load time in the source). -/
def TLS_FOLDER : String := "tls_crts"

def CA_CRT : String := TLS_FOLDER ++ "/ca.crt"

def SERVER_CRT : String := TLS_FOLDER ++ "/server.crt"

def SERVER_KEY : String := TLS_FOLDER ++ "/server.key"

/-- `check_if_tls_cert_exist`: waits up to 15s for the file; its eventual
answer is the oracle bit recorded in `TlsState`. -/
def check_if_tls_cert_exist (st : TlsState) (tls_file : String) : Bool :=
  st.fileExists tls_file

/-- `check_if_tls_cert_is_valid`: the file's mtime is younger than 3650 days. -/
def check_if_tls_cert_is_valid (st : TlsState) (tls_file : String) : Bool :=
  decide (st.ageDays tls_file < 3650)

/-- The `files_list` checked by `should_generate_new_tls_certs`. -/
def tls_files_list : List String := [CA_CRT, SERVER_KEY, SERVER_CRT]

/-- `should_generate_new_tls_certs`: `mkdir(exist_ok=False)` succeeds when the
folder does not yet exist (then certs are generated); on `FileExistsError` the
source loops over `files_list` and returns False at the FIRST file that both
exists and is valid, else falls through to True.  The early `return False`
inside the loop makes this an ANY-file check, which `List.any` mirrors. -/
def should_generate_new_tls_certs (st : TlsState) : Bool :=
  if !st.folderExists then true
  else if tls_files_list.any fun f =>
      check_if_tls_cert_exist st f && check_if_tls_cert_is_valid st f then false
  else true

/-- `wait_for_message`: re-read the whole file each tick, return True as soon
as the literal message occurs in the content, False once the timeout elapses.
`readLog t` is the file content observed at poll tick `t`. -/
def wait_for_message (readLog : Nat → String) (message : String) : Nat → Bool
  | 0 => false
  | fuel + 1 =>
    if strContains (readLog 0) message then true
    else wait_for_message (fun t => readLog (t + 1)) message fuel

/-- `wait_for_regex_in_log`: re-read the file each tick, scan its lines in
order, and return the requested regex group of the first line the pattern
matches; None once the timeout elapses.  The regex engine is abstracted as
`search : String → Option String`, the per-line `re.search` returning the
extracted group on a match. -/
def wait_for_regex_in_log (readLog : Nat → String)
    (search : String → Option String) : Nat → Option String
  | 0 => none
  | fuel + 1 =>
    match (pySplitlines (readLog 0)).findSome? search with
    | some v => some v
    | none => wait_for_regex_in_log (fun t => readLog (t + 1)) search fuel

/-- The known phrasings of the address-in-use launch failure. -/
def address_in_use_errors : List String :=
  ["Address already in use", "Address in use", "address in use"]

/-- `is_address_already_in_use`: each tick re-reads the node's log; any
in-use phrasing returns True, else a `Ready` marker returns False, else poll
again; timeout returns False (with a warning). -/
def is_address_already_in_use (readLog : Nat → String) : Nat → Bool
  | 0 => false
  | fuel + 1 =>
    let server_log := readLog 0
    if address_in_use_errors.any fun m => strContains server_log m then true
    else if strContains server_log "Ready" then false
    else is_address_already_in_use (fun t => readLog (t + 1)) fuel

/-- `wait_for_server`: PING until the stripped output is exactly `PONG`;
`probe t` is the PING stdout at tick `t`, None for a `communicate` timeout
(which the source swallows and retries). Timeout of the outer loop is False. -/
def wait_for_server (probe : Nat → Option String) : Nat → Bool
  | 0 => false
  | fuel + 1 =>
    match probe 0 with
    | some out =>
      if pyStrip out == "PONG" then true
      else wait_for_server (fun t => probe (t + 1)) fuel
    | none => wait_for_server (fun t => probe (t + 1)) fuel

/-- Body of `wait_for_server_shutdown`'s polling loop, carrying the mutable
`verify_times` counter.  Each tick: a PONG merely logs; any nonzero return
code decrements `verify_times` and the function returns True when the counter
reaches zero; a probe timeout only logs.  Note the counter is never reset by
an intervening PONG. -/
def wait_for_server_shutdown_go (probe : Nat → ProbeRes) (verify : Nat) :
    Nat → Bool
  | 0 => false
  | fuel + 1 =>
    match probe 0 with
    | .res _out retcode =>
      if retcode ≠ 0 then
        if verify - 1 = 0 then true
        else wait_for_server_shutdown_go (fun t => probe (t + 1)) (verify - 1) fuel
      else wait_for_server_shutdown_go (fun t => probe (t + 1)) verify fuel
    | .timedOut => wait_for_server_shutdown_go (fun t => probe (t + 1)) verify fuel

/-- `wait_for_server_shutdown`: poll PING with `verify_times = 2`. -/
def wait_for_server_shutdown (probe : Nat → ProbeRes) (fuel : Nat) : Bool :=
  wait_for_server_shutdown_go probe 2 fuel

/-- Number of ticks among the first `fuel` whose probe came back with a
nonzero return code (the failures `wait_for_server_shutdown` counts). -/
def shutdown_fail_count (probe : Nat → ProbeRes) : Nat → Nat
  | 0 => 0
  | fuel + 1 =>
    (match probe 0 with
      | .res _ retcode => if retcode ≠ 0 then 1 else 0
      | .timedOut => 0) +
      shutdown_fail_count (fun t => probe (t + 1)) fuel

/-- Probe sequence observed during a shutdown: a failure, then a successful
PONG, then a failure — two failures separated by a PONG. -/
def c3Probe : Nat → ProbeRes
  | 0 => ProbeRes.res "" 1
  | 1 => ProbeRes.res "PONG" 0
  | _ => ProbeRes.res "" 1

/-- TLS cache state in which only the CA certificate exists (fresh), while the
server key and certificate are missing. -/
def c4State : TlsState where
  folderExists := true
  fileExists := fun f => f == CA_CRT
  ageDays := fun _ => 0

/-- Oracle for everything the orchestrator observes from the outside world.
`fileContent path t` is the content of `path` as read at the t-th tick of
whichever polling loop is reading it; `freePort k` is the port found by the
k-th call to `next_free_port` during a run (None: its 60s search timed out);
`spawnOk k` is whether the k-th `Popen` of the server binary exited 0;
`pidSearch` abstracts `re.search` for the pid pattern (group 2 of
`version=(.*?)pid=([\d]+), just started`); `probe port t` is the stdout of
the t-th readiness PING against `port` (None: `communicate` timed out);
`pick` resolves the arbitrary order of Python's `set.pop`;
`createRes` is the `--cluster create` CLI call, `slots j a` / `nodes j a` the
a-th `cluster slots` / `cluster nodes` query against the j-th server, and
`replCmd i` the REPLICAOF command sent to the i-th server. -/
structure Env where
  fileContent : String → Nat → String
  freePort : Nat → Option Nat
  spawnOk : Nat → Bool
  pidSearch : String → Option String
  probe : Nat → Nat → Option String
  pick : Nat → Nat
  tls : TlsState
  tlsGenOk : Bool
  createRes : CmdRes
  slots : Nat → Nat → CmdRes
  nodes : Nat → Nat → CmdRes
  replCmd : Nat → CmdRes

/-- A node as tracked inside `create_servers`: the `(server, node_folder)`
tuple held in `servers_to_check`, tagged with the index `idx` of the
`start_server` call that produced it (so the oracle can be consulted about
this particular launch). -/
structure Launched where
  idx : Nat
  server : Server
  folder : String
deriving DecidableEq, Repr

/-- `start_server`: pick the port (`next_free_port` when none was supplied),
create the node sub-folder named by the port, spawn the daemonizing server
process, then recover the real pid from the node's log with a bounded wait
(`wait_for_regex_in_log`, non-fatal on timeout).  Version detection and the
exact argument vector only shape the spawned command line and are elided.
`k` is the index of this launch. -/
def start_server (env : Env) (k : Nat) (host : String) (port? : Option Nat)
    (cluster_folder : String) (pidFuel : Nat) :
    Except String Launched × List Ev :=
  let portRes : Except String (Nat × List Ev) :=
    match port? with
    | some p => .ok (p, [])
    | none =>
      match env.freePort k with
      | some p => .ok (p, [Ev.allocPort k p])
      | none => .error "Timeout Expired: No free port found"
  match portRes with
  | .error e => (.error e, [])
  | .ok (port, evs0) =>
    let node_folder := cluster_folder ++ "/" ++ toString port
    let evs1 := evs0 ++ [Ev.mkNodeDir node_folder, Ev.spawn k port]
    if env.spawnOk k then
      let logfile := node_folder ++ "/server.log"
      let pidStr := wait_for_regex_in_log (env.fileContent logfile) env.pidSearch pidFuel
      let pid : Int :=
        match pidStr with
        | some s => if s.isEmpty then -1 else ((digitsToNat s.data : Nat) : Int)
        | none => -1
      (.ok { idx := k
             server := { host := host, port := port, pid := pid, is_primary := true }
             folder := node_folder }, evs1)
    else
      (.error "Failed to execute command", evs1)

/-- The port handed to the i-th initial launch: `ports[i] if ports else None`
(note an empty explicit list is falsy in Python and behaves like None here). -/
def initialPortArg (ports? : Option (List Nat)) (i : Nat) : Option Nat :=
  match ports? with
  | some ps => if ps.isEmpty then none else some (ps.getD i 0)
  | none => none

/-- The `for i in range(nodes_count): servers_to_check.add(start_server(...))`
loop of `create_servers`; `i` is the next launch index, `cnt` the launches
still to make.  The first exception aborts. -/
def launch_initial (env : Env) (host cluster_folder : String)
    (ports? : Option (List Nat)) (pidFuel : Nat) :
    Nat → Nat → Except String (List Launched) × List Ev
  | _, 0 => (.ok [], [])
  | i, cnt + 1 =>
    match start_server env i host (initialPortArg ports? i) cluster_folder pidFuel with
    | (.error e, evs) => (.error e, evs)
    | (.ok l, evs) =>
      match launch_initial env host cluster_folder ports? pidFuel (i + 1) cnt with
      | (.error e, evs2) => (.error e, evs ++ evs2)
      | (.ok ls, evs2) => (.ok (l :: ls), evs ++ evs2)

/-- The `while len(servers_to_check) > 0` loop of `create_servers`.  One
iteration pops an arbitrary pending node (`env.pick` resolves `set.pop`),
checks its log for an address-in-use conflict; on conflict the node folder is
removed and then either the whole operation fails (explicit port list) or the
node is relaunched on a fresh auto-chosen port and re-inserted; otherwise the
node must answer the readiness PING within its budget or the operation fails.
`fuel` bounds the number of iterations (the Python loop has no such bound and
could in principle relaunch forever); `k` is the next fresh launch index. -/
def check_servers_loop (env : Env) (host cluster_folder : String)
    (ports? : Option (List Nat)) (pidFuel inUseFuel readyFuel : Nat) :
    Nat → List Launched → List Launched → Nat →
    Except String (List Launched) × List Ev
  | _, [], ready, _ => (.ok ready.reverse, [])
  | 0, _ :: _, _, _ => (.error "scheduling fuel exhausted", [])
  | fuel + 1, a :: as, ready, k =>
    let toCheck := a :: as
    let i := env.pick fuel % toCheck.length
    let l := toCheck.get ⟨i, Nat.mod_lt _ (Nat.succ_pos as.length)⟩
    let rest := toCheck.eraseIdx i
    if is_address_already_in_use (env.fileContent (l.folder ++ "/server.log")) inUseFuel then
      if ports?.isSome then
        (.error "address already in use", [Ev.removeDir l.folder])
      else
        match start_server env k host none cluster_folder pidFuel with
        | (.error e, evs) => (.error e, Ev.removeDir l.folder :: evs)
        | (.ok l2, evs) =>
          match check_servers_loop env host cluster_folder ports? pidFuel inUseFuel
              readyFuel fuel (l2 :: rest) ready (k + 1) with
          | (r, evs2) => (r, Ev.removeDir l.folder :: (evs ++ evs2))
    else if wait_for_server (env.probe l.server.port) readyFuel then
      check_servers_loop env host cluster_folder ports? pidFuel inUseFuel readyFuel
        fuel rest (l :: ready) k
    else
      (.error "waiting for server to start exceeded timeout", [])

/-- `create_servers`: ensure TLS material when requested, launch all
`shard_count * (1 + replica_count)` servers, then run the conflict/readiness
check loop over the pending set and return the ready servers. -/
def create_servers (env : Env) (host : String) (shard_count replica_count : Nat)
    (ports? : Option (List Nat)) (cluster_folder : String) (tls : Bool)
    (pidFuel inUseFuel readyFuel loopFuel : Nat) :
    Except String (List Server) × List Ev :=
  let nodes_count := shard_count * (1 + replica_count)
  let genTls := tls && should_generate_new_tls_certs env.tls
  let tlsEvs : List Ev := if genTls then [Ev.tlsGenerate] else []
  if genTls && !env.tlsGenOk then
    (.error "failed to generate TLS certificates", tlsEvs)
  else
    match launch_initial env host cluster_folder ports? pidFuel 0 nodes_count with
    | (.error e, evs) => (.error e, tlsEvs ++ evs)
    | (.ok ls, evs) =>
      match check_servers_loop env host cluster_folder ports? pidFuel inUseFuel
          readyFuel loopFuel ls [] nodes_count with
      | (.error e, evs2) => (.error e, tlsEvs ++ evs ++ evs2)
      | (.ok res, evs2) => (.ok (res.map fun l => l.server), tlsEvs ++ evs ++ evs2)

/-- The port that the launch with index `j` runs on, as a function of the
oracle and the arguments (`n` is the total node count): initial launches take
their entry of a nonempty explicit port list, every other launch asks
`next_free_port`. -/
def portAssigned (env : Env) (ports? : Option (List Nat)) (n j : Nat) : Option Nat :=
  match ports? with
  | some ps =>
    if ps.isEmpty then env.freePort j
    else if j < n then some (ps.getD j 0) else env.freePort j
  | none => env.freePort j

/-- The address-in-use verdict for a node folder named by `port` under
`cluster_folder` (what `check_servers_loop` reads for such a node). -/
def inUseFor (env : Env) (cluster_folder : String) (port : Nat) (inUseFuel : Nat) : Bool :=
  is_address_already_in_use
    (env.fileContent (cluster_folder ++ "/" ++ toString port ++ "/server.log")) inUseFuel

deriving instance DecidableEq for Except

/-- Parsed view of the `CLUSTER NODES` line describing the queried node. -/
structure NodeInfo where
  node_id : String
  network : String
  is_primary : Bool
deriving DecidableEq, Repr

/-- The line scan of `parse_cluster_nodes`: first line with at least three
space-separated tokens whose flags token mentions `myself`. -/
def first_myself_line : List String → Option NodeInfo
  | [] => none
  | line :: rest =>
    let tokens := pySplit ' ' line
    if tokens.length < 3 then first_myself_line rest
    else
      let node_id := pyStrip (tokens.getD 0 "")
      let network := pyStrip (tokens.getD 1 "")
      let flags := pyStrip (tokens.getD 2 "")
      if strContains flags "myself" then
        some { node_id := node_id, network := network
               is_primary := strContains flags "master" }
      else first_myself_line rest

/-- `parse_cluster_nodes` applied to the raw `CLUSTER NODES` output. -/
def parse_cluster_nodes (command_output : Option String) : Option NodeInfo :=
  match command_output with
  | none => none
  | some out => first_myself_line (pySplitlines out)

/-- `redis_cli_run_command`: a CLI `communicate` timeout yields None, any
stderr output raises, otherwise the stdout is returned. -/
def redis_cli_run_command (r : CmdRes) : Except String (Option String) :=
  match r with
  | .timedOut => .ok none
  | .res out err =>
    if err ≠ "" then .error "Failed to execute command" else .ok (some out)

/-- One server's retry loop inside `wait_for_all_topology_views`: repeat
`cluster slots` until the output mentions the server's host once per cluster
member, then read the node's own role from `cluster nodes` (no role update
when that output yields no parse).  `j` is the server's position, `attempt`
the query counter, the second argument the remaining retry budget (the source
starts it at 81: `retries = 80` down to and including 0). -/
def topology_view_go (env : Env) (j total : Nat) :
    Nat → Nat → Server → Except String Server
  | _, 0, _ => .error "Timeout exceeded trying to wait for the server to know all hosts"
  | attempt, left + 1, server =>
    match redis_cli_run_command (env.slots j attempt) with
    | .error e => .error e
    | .ok output =>
      if (match output with
          | some o => countSub o server.host == total
          | none => false) then
        match redis_cli_run_command (env.nodes j attempt) with
        | .error e => .error e
        | .ok nodesOut =>
          match parse_cluster_nodes nodesOut with
          | some info => .ok { server with is_primary := info.is_primary }
          | none => .ok server
      else topology_view_go env j total (attempt + 1) left server

/-- The per-server iteration of `wait_for_all_topology_views`, propagating the
role updates into the returned list (the source mutates the `Server` objects
in place). -/
def topology_views_go (env : Env) (total : Nat) :
    Nat → List Server → Except String (List Server)
  | _, [] => .ok []
  | j, s :: ss =>
    match topology_view_go env j total 0 81 s with
    | .error e => .error e
    | .ok s2 =>
      match topology_views_go env total (j + 1) ss with
      | .error e => .error e
      | .ok ss2 => .ok (s2 :: ss2)

/-- `wait_for_all_topology_views`. -/
def wait_for_all_topology_views (env : Env) (servers : List Server) :
    Except String (List Server) :=
  topology_views_go env servers.length 0 servers

/-- The skip test of `wait_for_a_message_in_logs`:
`if server_ports and basename not in server_ports: continue` — a None or
empty (falsy) port list filters nothing. -/
def keepDir (server_ports : Option (List String)) (base : String) : Bool :=
  match server_ports with
  | none => true
  | some l => l.isEmpty || l.contains base

/-- `wait_for_a_message_in_logs`: for every node directory that passes the
port filter, wait for the literal message in its `server.log`; the first
directory whose log times out raises. -/
def wait_for_a_message_in_logs (env : Env) (dirs : List String) (message : String)
    (server_ports : Option (List String)) (msgFuel : Nat) : Except String Unit :=
  match dirs with
  | [] => .ok ()
  | d :: ds =>
    if keepDir server_ports (baseName d) then
      if wait_for_message (env.fileContent (d ++ "/server.log")) message msgFuel then
        wait_for_a_message_in_logs env ds message server_ports msgFuel
      else .error ("server logs did not contain the message: " ++ message)
    else wait_for_a_message_in_logs env ds message server_ports msgFuel

/-- `create_cluster`: one `--cluster create` CLI call over all nodes, requiring
an empty error stream and the all-slots-covered marker, then the cluster state
change line in every node log, then converged topology views. -/
def create_cluster (env : Env) (servers : List Server) (replica_count : Nat)
    (dirs : List String) (msgFuel : Nat) : Except String (List Server) × List Ev :=
  let ev := Ev.clusterCreate (servers.map fun s => s.port) replica_count
  match env.createRes with
  | .timedOut => (.error "cluster create command timed out", [ev])
  | .res out err =>
    if err ≠ "" || !strContains out "[OK] All 16384 slots covered." then
      (.error "Failed to create cluster", [ev])
    else
      match wait_for_a_message_in_logs env dirs "Cluster state changed: ok" none msgFuel with
      | .error e => (.error e, [ev])
      | .ok _ =>
        match wait_for_all_topology_views env servers with
        | .error e => (.error e, [ev])
        | .ok servers2 => (.ok servers2, [ev])

/-- The `for i, server in enumerate(servers)` body of
`create_standalone_replication`, from position 1 on: issue REPLICAOF towards
the primary and require an empty error stream and an output containing `OK`
(substring test, as in the source). -/
def repl_loop (env : Env) (primary : Server) :
    Nat → List Server → Except String Unit × List Ev
  | _, [] => (.ok (), [])
  | i, s :: ss =>
    let ev := Ev.replicaOf s.host s.port primary.host primary.port
    match env.replCmd i with
    | .timedOut => (.error "replication command timed out", [ev])
    | .res out err =>
      if err ≠ "" || !strContains out "OK" then
        (.error "Failed to set up replication", [ev])
      else
        match repl_loop env primary (i + 1) ss with
        | (r, evs) => (r, ev :: evs)

/-- `create_standalone_replication`: the first server is the primary, every
other server is told to replicate from it, then the replica sync completion
line is awaited in the logs of the directories named by the non-primary
ports. -/
def create_standalone_replication (env : Env) (servers : List Server)
    (dirs : List String) (msgFuel : Nat) : Except String Unit × List Ev :=
  match servers with
  | [] => (.error "no servers", [])
  | primary :: rest =>
    match repl_loop env primary 1 rest with
    | (.error e, evs) => (.error e, evs)
    | (.ok _, evs) =>
      let servers_ports := (primary :: rest).map fun s => toString s.port
      match wait_for_a_message_in_logs env dirs "sync: Finished with success"
          (some (servers_ports.drop 1)) msgFuel with
      | .error e => (.error e, evs)
      | .ok _ => (.ok (), evs)

/-- Node directories present under the cluster folder after a trace of
filesystem events (the directories `rglob` would find). -/
def dirs_of_events_go (acc : List String) : List Ev → List String
  | [] => acc
  | e :: rest =>
    dirs_of_events_go
      (match e with
        | .mkNodeDir p => acc ++ [p]
        | .removeDir p => acc.erase p
        | _ => acc) rest

def dirs_of_events (evs : List Ev) : List String := dirs_of_events_go [] evs

/-- The port-list sanity test of `main`'s start branch:
`if args.ports and len(args.ports) != shard_count * (1 + replica_count)`. -/
def portsLenMismatch (ports? : Option (List Nat)) (n : Nat) : Bool :=
  match ports? with
  | some ps => !ps.isEmpty && decide (ps.length ≠ n)
  | none => false

/-- The `start` action of `main`: without `--cluster-mode` the shard count is
overridden to 1; a truthy explicit port list of the wrong length is rejected
by `parser.error` before the cluster folder is created or anything is
launched; then servers are created and the topology is formed — by
`create_cluster` exactly when cluster mode was requested, else by
`create_standalone_replication` when there are replicas. -/
def main_start (env : Env) (cluster_mode : Bool) (shard_count replica_count : Nat)
    (ports? : Option (List Nat)) (tls : Bool) (host cluster_folder : String)
    (pidFuel inUseFuel readyFuel loopFuel msgFuel : Nat) :
    Except String (List Server) × List Ev :=
  let shard_count := if cluster_mode then shard_count else 1
  if portsLenMismatch ports? (shard_count * (1 + replica_count)) then
    (.error "The number of ports must be equal to the total number of nodes", [])
  else
    match create_servers env host shard_count replica_count ports? cluster_folder tls
        pidFuel inUseFuel readyFuel loopFuel with
    | (.error e, evs) => (.error e, Ev.createFolder cluster_folder :: evs)
    | (.ok servers, evs) =>
      let dirs := dirs_of_events evs
      if cluster_mode then
        match create_cluster env servers replica_count dirs msgFuel with
        | (.error e, evs2) => (.error e, Ev.createFolder cluster_folder :: (evs ++ evs2))
        | (.ok servers2, evs2) => (.ok servers2, Ev.createFolder cluster_folder :: (evs ++ evs2))
      else if 0 < replica_count then
        match create_standalone_replication env servers dirs msgFuel with
        | (.error e, evs2) => (.error e, Ev.createFolder cluster_folder :: (evs ++ evs2))
        | (.ok _, evs2) => (.ok servers, Ev.createFolder cluster_folder :: (evs ++ evs2))
      else
        (.ok servers, Ev.createFolder cluster_folder :: evs)

/-- Python `str.isdigit` for the ASCII directory names at hand. -/
def isDigitName (s : String) : Bool := !s.isEmpty && s.data.all Char.isDigit

/-- Oracle for a teardown run: `cmd j a` is the a-th `shutdown nosave` CLI
attempt against the j-th directory entry, `probe j a t` the t-th
post-shutdown PING of that attempt. -/
structure StopEnv where
  cmd : Nat → Nat → CmdRes
  probe : Nat → Nat → Nat → ProbeRes

/-- The retry loop of `stop_server`: up to 4 attempts (`retries = 3` down to
0), retrying only on a `communicate` timeout of the shutdown command; stderr
output other than the known password warning raises immediately, as does a
failed shutdown confirmation. -/
def stop_server_go (cmd : Nat → CmdRes) (probe : Nat → Nat → ProbeRes)
    (shutFuel : Nat) : Nat → Nat → Except String Unit
  | _, 0 => .error "Failed to shutdown host"
  | attempt, left + 1 =>
    match cmd attempt with
    | .timedOut => stop_server_go cmd probe shutFuel (attempt + 1) left
    | .res _out err =>
      if err ≠ "" && !strContains err "Warning: Using a password with \x27-a\x27" then
        .error "Failed to execute shutdown command"
      else if wait_for_server_shutdown (probe attempt) shutFuel then .ok ()
      else .error "Timeout elapsed while waiting for the node to shutdown"

/-- `stop_server`. -/
def stop_server (cmd : Nat → CmdRes) (probe : Nat → Nat → ProbeRes)
    (shutFuel : Nat) : Except String Unit :=
  stop_server_go cmd probe shutFuel 0 4

/-- The `for it in os.scandir(cluster_folder)` loop of `stop_cluster`:
every directory entry with an all-digit name gets a graceful shutdown
attempt; an exception from `stop_server` only clears the `all_stopped` flag
and iteration continues.  `j` is the entry position (keys the oracle). -/
def stop_cluster_go (env : StopEnv) (host : String) (shutFuel : Nat) :
    List (String × Bool) → Nat → Bool × List Ev
  | [], _ => (true, [])
  | (name, isDir) :: rest, j =>
    if isDir && isDigitName name then
      let r := stop_server (env.cmd j) (env.probe j) shutFuel
      match stop_cluster_go env host shutFuel rest (j + 1) with
      | (allRest, evs) =>
        ((match r with | .ok _ => allRest | .error _ => false),
          Ev.shutdownCmd host (digitsToNat name.data) :: evs)
    else stop_cluster_go env host shutFuel rest (j + 1)

/-- `stop_cluster`: attempt a graceful shutdown of every digit-named node
sub-directory, then remove the workspace folder unless `keep_folder`.
`entries` lists `os.scandir`'s directory entries as (name, is_dir) pairs. -/
def stop_cluster (env : StopEnv) (entries : List (String × Bool))
    (host cluster_folder : String) (keep_folder : Bool) (shutFuel : Nat) :
    Bool × List Ev :=
  match stop_cluster_go env host shutFuel entries 0 with
  | (allStopped, evs) =>
    (allStopped, evs ++ if keep_folder then [] else [Ev.removeDir cluster_folder])

/-- Properties every tracked launch enjoys: its port is the one the oracle
assigns to its launch index, its server was constructed primary, and its
folder is the port-named sub-directory. -/
def LaunchedOk (env : Env) (cluster_folder : String) (ports? : Option (List Nat))
    (n : Nat) (l : Launched) : Prop :=
  portAssigned env ports? n l.idx = some l.server.port ∧
  l.server.is_primary = true ∧
  l.folder = cluster_folder ++ "/" ++ toString l.server.port

/-- Invariant of `check_servers_loop`: launch indices are pairwise distinct
and below the next fresh index `k`, every tracked launch is `LaunchedOk`, and
every node already accepted as ready passed its conflict check. -/
def StateInv (env : Env) (cluster_folder : String) (ports? : Option (List Nat))
    (n inUseFuel k : Nat) (toCheck ready : List Launched) : Prop :=
  ((toCheck ++ ready).Pairwise fun x y => x.idx ≠ y.idx) ∧
  (∀ l ∈ toCheck ++ ready, l.idx < k ∧ LaunchedOk env cluster_folder ports? n l) ∧
  (∀ l ∈ ready, inUseFor env cluster_folder l.server.port inUseFuel = false)

/-- What a successful `check_servers_loop` guarantees about its result. -/
def ResultOk (env : Env) (cluster_folder : String) (ports? : Option (List Nat))
    (n inUseFuel : Nat) (res : List Launched) : Prop :=
  (res.Pairwise fun x y => x.idx ≠ y.idx) ∧
  ∀ l ∈ res, LaunchedOk env cluster_folder ports? n l ∧
    inUseFor env cluster_folder l.server.port inUseFuel = false

/-- Soundness of conflict detection, the real-world assumption behind port
uniqueness: a port that the oracle would hand to two different launches is a
port on which at most one server can actually bind, so the log check for a
node folder named by that port reports the conflict. -/
def ConflictSound (env : Env) (cluster_folder : String) (ports? : Option (List Nat))
    (n inUseFuel : Nat) : Prop :=
  ∀ j k p, j ≠ k → portAssigned env ports? n j = some p →
    portAssigned env ports? n k = some p →
    inUseFor env cluster_folder p inUseFuel = true

/-- Does an event record the `--cluster create` CLI call? -/
def isClusterCreateEv : Ev → Bool
  | .clusterCreate _ _ => true
  | _ => false

/-- Does an event record a REPLICAOF CLI call? -/
def isReplicaOfEv : Ev → Bool
  | .replicaOf _ _ _ _ => true
  | _ => false

/-- Does an event record a server process spawn? -/
def isSpawnEv : Ev → Bool
  | .spawn _ _ => true
  | _ => false

/-- Acknowledgement test the source applies to the i-th REPLICAOF command:
no stderr and an stdout containing `OK`. -/
def replAck (env : Env) (i : Nat) : Bool :=
  match env.replCmd i with
  | .timedOut => false
  | .res out err => err == "" && strContains out "OK"

/-- A well-behaved world: fresh ports 7000, 7001, ... are free, every spawn
succeeds, every log shows `Ready` and then a completed sync, every PING
answers PONG, and REPLICAOF answers with an output containing `OK` without
being the exact acknowledgement. -/
def envW : Env where
  fileContent := fun _ _ => "Ready sync: Finished with success"
  freePort := fun j => some (7000 + j)
  spawnOk := fun _ => true
  pidSearch := fun _ => none
  probe := fun _ _ => some "PONG\n"
  pick := fun _ => 0
  tls := { folderExists := false, fileExists := fun _ => false, ageDays := fun _ => 0 }
  tlsGenOk := true
  createRes := CmdRes.res "" ""
  slots := fun _ _ => CmdRes.timedOut
  nodes := fun _ _ => CmdRes.timedOut
  replCmd := fun _ => CmdRes.res "JOKER" ""

/-- Like `envW`, but the log of the node folder for port 7000 shows the
address-already-in-use failure. -/
def envC2 : Env :=
  { envW with
    fileContent := fun path _ =>
      if path = "cf/7000/server.log" then "zz Address already in use"
      else "Ready sync: Finished with success" }

/-- A world in which a single-shard cluster-mode start succeeds end to end:
the cluster create CLI reports all slots covered, every log shows the cluster
state change, and the one node's topology view and role line are complete. -/
def envC5 : Env :=
  { envW with
    fileContent := fun _ _ => "Ready Cluster state changed: ok"
    createRes := CmdRes.res "[OK] All 16384 slots covered." ""
    slots := fun _ _ => CmdRes.res "127.0.0.1:7000" ""
    nodes := fun _ _ => CmdRes.res "abc 127.0.0.1:7000@17000 myself,master" "" }

/-! Theorems.  Helper lemmas come first, the per-claim theorems are named
`C1_...` through `C10_...`. -/

theorem wait_for_message_eq_true_iff :
    ∀ (fuel : Nat) (readLog : Nat → String) (msg : String),
    wait_for_message readLog msg fuel = true ↔
      ∃ t, t < fuel ∧ strContains (readLog t) msg = true := by
  intro fuel
  induction fuel with
  | zero => intro readLog msg; simp [wait_for_message]
  | succ n ih =>
    intro readLog msg
    rw [wait_for_message]
    by_cases h : strContains (readLog 0) msg = true
    · rw [if_pos h]
      simp only [true_iff]
      exact ⟨0, Nat.succ_pos n, h⟩
    · rw [if_neg h, ih]
      constructor
      · rintro ⟨t, ht, hc⟩
        exact ⟨t + 1, by omega, hc⟩
      · rintro ⟨t, ht, hc⟩
        cases t with
        | zero => exact absurd hc h
        | succ t => exact ⟨t, by omega, hc⟩

theorem wait_for_regex_sound :
    ∀ (fuel : Nat) (readLog : Nat → String) (search : String → Option String)
      (v : String),
    wait_for_regex_in_log readLog search fuel = some v →
    ∃ t, t < fuel ∧ ∃ line ∈ pySplitlines (readLog t), search line = some v := by
  intro fuel
  induction fuel with
  | zero => intro readLog search v h; simp [wait_for_regex_in_log] at h
  | succ n ih =>
    intro readLog search v h
    rw [wait_for_regex_in_log] at h
    cases hf : (pySplitlines (readLog 0)).findSome? search with
    | some w =>
      rw [hf] at h
      cases h
      obtain ⟨l₁, line, l₂, heq, hline, -⟩ := List.findSome?_eq_some_iff.mp hf
      refine ⟨0, Nat.succ_pos n, line, ?_, hline⟩
      rw [heq]
      exact List.mem_append_right l₁ (List.mem_cons_self line l₂)
    | none =>
      rw [hf] at h
      obtain ⟨t, ht, line, hmem, hline⟩ := ih _ search v h
      exact ⟨t + 1, by omega, line, hmem, hline⟩

theorem wait_for_regex_complete :
    ∀ (fuel : Nat) (readLog : Nat → String) (search : String → Option String),
    (∀ t, t < fuel → ∀ line ∈ pySplitlines (readLog t), search line = none) →
    wait_for_regex_in_log readLog search fuel = none := by
  intro fuel
  induction fuel with
  | zero => intro readLog search _; rfl
  | succ n ih =>
    intro readLog search h
    rw [wait_for_regex_in_log]
    have hf : (pySplitlines (readLog 0)).findSome? search = none := by
      rw [List.findSome?_eq_none_iff]
      exact h 0 (Nat.succ_pos n)
    rw [hf]
    exact ih _ search fun t ht => h (t + 1) (by omega)

/-- C8: the log watchers never report a false match and stop at their poll
budget.  `wait_for_message` answers True exactly when the literal message
occurred in some content it read within its budget; `wait_for_regex_in_log`
returns a group value only when some line of some content it read matched,
and returns None (rather than polling on) when no read content ever matches
within the budget.  The wall-clock timeout of the source is modelled as the
poll budget `fuel` (one tick per re-read, so the loop returns within the
timeout plus one final polling interval). -/
theorem C8_log_watchers (readLog : Nat → String) (msg : String)
    (search : String → Option String) (fuel : Nat) :
    (wait_for_message readLog msg fuel = true ↔
      ∃ t, t < fuel ∧ strContains (readLog t) msg = true) ∧
    (∀ v, wait_for_regex_in_log readLog search fuel = some v →
      ∃ t, t < fuel ∧ ∃ line ∈ pySplitlines (readLog t), search line = some v) ∧
    ((∀ t, t < fuel → ∀ line ∈ pySplitlines (readLog t), search line = none) →
      wait_for_regex_in_log readLog search fuel = none) :=
  ⟨wait_for_message_eq_true_iff fuel readLog msg,
   fun v => wait_for_regex_sound fuel readLog search v,
   wait_for_regex_complete fuel readLog search⟩

/-- Closed instance of C8 at concrete inputs. -/
theorem C8_witness :
    wait_for_message (fun _ => "abc") "b" 3 = true ∧
    wait_for_regex_in_log (fun _ => "x") (fun _ => none) 3 = none :=
  ⟨(C8_log_watchers (fun _ => "abc") "b" (fun _ => none) 3).1.mpr
      ⟨0, by decide, by decide⟩,
   (C8_log_watchers (fun _ => "x") "b" (fun _ => none) 3).2.2
      fun _t _ht _line _hl => rfl⟩

/-- C3 counterexample: the claim says two probe failures separated by a
successful PONG do NOT suffice for `wait_for_server_shutdown` to report the
node as down.  But the `verify_times` counter is never reset by a PONG, so
the probe sequence failure / PONG / failure makes it return True. -/
theorem C3_counterexample :
    wait_for_server_shutdown c3Probe 5 = true ∧
    c3Probe 0 = ProbeRes.res "" 1 ∧
    c3Probe 1 = ProbeRes.res "PONG" 0 ∧
    c3Probe 2 = ProbeRes.res "" 1 := by decide

theorem wait_for_server_shutdown_go_iff :
    ∀ (fuel : Nat) (probe : Nat → ProbeRes) (v : Nat),
    wait_for_server_shutdown_go probe v fuel = true ↔
      max 1 v ≤ shutdown_fail_count probe fuel := by
  intro fuel
  induction fuel with
  | zero =>
    intro probe v
    simp [wait_for_server_shutdown_go, shutdown_fail_count]
  | succ n ih =>
    intro probe v
    rw [wait_for_server_shutdown_go, shutdown_fail_count]
    cases hp : probe 0 with
    | res out retcode =>
      dsimp only
      by_cases hrc : retcode ≠ 0
      · rw [if_pos hrc, if_pos hrc]
        by_cases hv : v - 1 = 0
        · rw [if_pos hv]
          simp only [true_iff]
          omega
        · rw [if_neg hv, ih]
          omega
      · rw [if_neg hrc, if_neg hrc, ih]
        omega
    | timedOut =>
      dsimp only
      rw [ih]
      omega

/-- C3 amended: shutdown is reported once two probe failures IN TOTAL have
been observed within the poll budget — not two consecutive ones.  A single
failure is still never enough, but failures separated by successful PONGs
accumulate (the counter is never reset). -/
theorem C3_amended (probe : Nat → ProbeRes) (fuel : Nat) :
    wait_for_server_shutdown probe fuel = true ↔
      2 ≤ shutdown_fail_count probe fuel := by
  rw [wait_for_server_shutdown, wait_for_server_shutdown_go_iff]
  norm_num

/-- C4: the code contradicts the claim (and its own comment).  With the TLS
folder present, the CA certificate existing and fresh, but the server key and
certificate MISSING, `should_generate_new_tls_certs` still answers False —
the early `return False` inside its loop skips regeneration as soon as any
one of the three files exists and is valid, where the claim requires all
three. -/
theorem C4_code_bug_eval :
    should_generate_new_tls_certs c4State = false ∧
    c4State.folderExists = true ∧
    check_if_tls_cert_exist c4State CA_CRT = true ∧
    check_if_tls_cert_is_valid c4State CA_CRT = true ∧
    check_if_tls_cert_exist c4State SERVER_KEY = false ∧
    check_if_tls_cert_exist c4State SERVER_CRT = false := by decide

theorem stop_cluster_go_trace (env : StopEnv) (host : String) (shutFuel : Nat) :
    ∀ (entries : List (String × Bool)) (j : Nat),
    (stop_cluster_go env host shutFuel entries j).snd =
      entries.filterMap fun e =>
        if e.2 && isDigitName e.1 then
          some (Ev.shutdownCmd host (digitsToNat e.1.data))
        else none := by
  intro entries
  induction entries with
  | nil => intro j; simp [stop_cluster_go]
  | cons e rest ih =>
    intro j
    obtain ⟨name, isDir⟩ := e
    rw [stop_cluster_go]
    by_cases h : (isDir && isDigitName name) = true
    · rw [if_pos h]
      rcases hrec : stop_cluster_go env host shutFuel rest (j + 1) with ⟨allRest, evs⟩
      have hsnd := ih (j + 1)
      rw [hrec] at hsnd
      simp only [List.filterMap_cons, h, if_pos]
      exact congrArg _ hsnd
    · rw [if_neg h]
      simp only [Bool.not_eq_true] at h
      simp only [List.filterMap_cons, h]
      exact ih (j + 1)

/-- C7: teardown of one workspace issues exactly one graceful-shutdown
attempt per digit-named directory entry, in scan order, for EVERY oracle —
in particular however many of the individual `stop_server` calls fail — and
ends by removing the workspace folder exactly when retention was not
requested. -/
theorem C7_teardown_attempts_all (env : StopEnv) (entries : List (String × Bool))
    (host cluster_folder : String) (keep_folder : Bool) (shutFuel : Nat) :
    (stop_cluster env entries host cluster_folder keep_folder shutFuel).snd =
      (entries.filterMap fun e =>
        if e.2 && isDigitName e.1 then
          some (Ev.shutdownCmd host (digitsToNat e.1.data))
        else none) ++
        if keep_folder then [] else [Ev.removeDir cluster_folder] := by
  rw [stop_cluster]
  rcases hgo : stop_cluster_go env host shutFuel entries 0 with ⟨allStopped, evs⟩
  have h := stop_cluster_go_trace env host shutFuel entries 0
  rw [hgo] at h
  simpa using congrArg (fun l => l ++ if keep_folder then ([] : List Ev) else [Ev.removeDir cluster_folder]) h

theorem perm_get_cons_eraseIdx :
    ∀ (l : List Launched) (i : Nat) (h : i < l.length),
    l.Perm (l.get ⟨i, h⟩ :: l.eraseIdx i) := by
  intro l
  induction l with
  | nil => intro i h; exact absurd h (by simp)
  | cons a as ih =>
    intro i h
    cases i with
    | zero => simp [List.eraseIdx]
    | succ i =>
      have h' : i < as.length := by simpa using h
      have step := List.Perm.cons a (ih i h')
      have sw := List.Perm.swap (as.get ⟨i, h'⟩) a (as.eraseIdx i)
      have : (a :: as).Perm (as.get ⟨i, h'⟩ :: a :: as.eraseIdx i) :=
        step.trans sw
      simpa [List.eraseIdx] using this

theorem start_server_ok_props (env : Env) (k : Nat) (host : String)
    (port? : Option Nat) (cluster_folder : String) (pidFuel : Nat)
    (l : Launched) (evs : List Ev)
    (h : start_server env k host port? cluster_folder pidFuel = (.ok l, evs)) :
    l.idx = k ∧ l.server.is_primary = true ∧ l.server.host = host ∧
    l.folder = cluster_folder ++ "/" ++ toString l.server.port ∧
    (∀ p, port? = some p → l.server.port = p) ∧
    (port? = none → env.freePort k = some l.server.port) := by
  rw [start_server.eq_def] at h
  cases port? with
  | some p =>
    dsimp only at h
    by_cases hs : env.spawnOk k = true
    · rw [if_pos hs] at h
      have hl : Launched.mk k
          { host := host, port := p,
            pid := match wait_for_regex_in_log
                (env.fileContent (cluster_folder ++ "/" ++ toString p ++ "/server.log"))
                env.pidSearch pidFuel with
              | some s => if s.isEmpty then -1 else ((digitsToNat s.data : Nat) : Int)
              | none => -1,
            is_primary := true }
          (cluster_folder ++ "/" ++ toString p) = l := by
        have := congrArg Prod.fst h
        simpa using this
      subst hl
      refine ⟨rfl, rfl, rfl, rfl, ?_, ?_⟩
      · intro q hq
        exact Option.some.inj hq
      · intro hq
        exact absurd hq (Option.some_ne_none p)
    · rw [if_neg hs] at h
      exact absurd (congrArg Prod.fst h) (by simp)
  | none =>
    cases hfp : env.freePort k with
    | none =>
      rw [hfp] at h
      exact absurd (congrArg Prod.fst h) (by simp)
    | some p =>
      rw [hfp] at h
      dsimp only at h
      by_cases hs : env.spawnOk k = true
      · rw [if_pos hs] at h
        have hl : Launched.mk k
            { host := host, port := p,
              pid := match wait_for_regex_in_log
                  (env.fileContent (cluster_folder ++ "/" ++ toString p ++ "/server.log"))
                  env.pidSearch pidFuel with
                | some s => if s.isEmpty then -1 else ((digitsToNat s.data : Nat) : Int)
                | none => -1,
              is_primary := true }
            (cluster_folder ++ "/" ++ toString p) = l := by
          have := congrArg Prod.fst h
          simpa using this
        subst hl
        refine ⟨rfl, rfl, rfl, rfl, ?_, fun _ => rfl⟩
        intro q hq
        exact absurd hq.symm (Option.some_ne_none q)
      · rw [if_neg hs] at h
        exact absurd (congrArg Prod.fst h) (by simp)

theorem launchedOk_of_start (env : Env) (k : Nat) (host : String)
    (ports? : Option (List Nat)) (n : Nat) (cluster_folder : String)
    (pidFuel : Nat) (l : Launched) (evs : List Ev) (hk : k < n)
    (h : start_server env k host (initialPortArg ports? k) cluster_folder pidFuel
        = (.ok l, evs)) :
    LaunchedOk env cluster_folder ports? n l := by
  obtain ⟨hidx, hprim, -, hfold, hsome, hnone⟩ :=
    start_server_ok_props env k host _ cluster_folder pidFuel l evs h
  refine ⟨?_, hprim, hfold⟩
  rw [hidx, portAssigned.eq_def]
  cases ports? with
  | none =>
    exact hnone rfl
  | some ps =>
    by_cases hemp : ps.isEmpty = true
    · dsimp only
      rw [if_pos hemp]
      exact hnone (by simp [initialPortArg, hemp])
    · simp only [hemp]
      rw [if_neg (by simp [hemp]), if_pos hk]
      have := hsome (ps.getD k 0) (by simp [initialPortArg, hemp])
      rw [this]

theorem launch_initial_ok (env : Env) (host cluster_folder : String)
    (ports? : Option (List Nat)) (pidFuel n : Nat) :
    ∀ (cnt i : Nat) (ls : List Launched) (evs : List Ev),
    launch_initial env host cluster_folder ports? pidFuel i cnt = (.ok ls, evs) →
    i + cnt ≤ n →
    ls.length = cnt ∧
    (∀ l ∈ ls, i ≤ l.idx ∧ l.idx < i + cnt ∧ LaunchedOk env cluster_folder ports? n l) ∧
    (ls.Pairwise fun x y => x.idx < y.idx) := by
  intro cnt
  induction cnt with
  | zero =>
    intro i ls evs h _
    rw [launch_initial] at h
    have h1 : (Except.ok [] : Except String (List Launched)) = .ok ls := congrArg Prod.fst h
    cases h1
    simp
  | succ cnt ih =>
    intro i ls evs h hn
    rw [launch_initial] at h
    cases hs : start_server env i host (initialPortArg ports? i) cluster_folder pidFuel with
    | mk r evs1 =>
      rw [hs] at h
      cases r with
      | error e => exact absurd (congrArg Prod.fst h) (by simp)
      | ok l =>
        cases hrec : launch_initial env host cluster_folder ports? pidFuel (i + 1) cnt with
        | mk r2 evs2 =>
          rw [hrec] at h
          cases r2 with
          | error e => exact absurd (congrArg Prod.fst h) (by simp)
          | ok ls2 =>
            have hls : l :: ls2 = ls := by
              have := congrArg Prod.fst h
              simpa using this
            subst hls
            obtain ⟨hlen2, hmem2, hpair2⟩ := ih (i + 1) ls2 evs2 hrec (by omega)
            obtain ⟨hidx, -, -, -, -, -⟩ :=
              start_server_ok_props env i host _ cluster_folder pidFuel l evs1 hs
            have hLok : LaunchedOk env cluster_folder ports? n l :=
              launchedOk_of_start env i host ports? n cluster_folder pidFuel l evs1
                (by omega) hs
            refine ⟨by simp [hlen2], ?_, ?_⟩
            · intro x hx
              cases hx with
              | head =>
                exact ⟨by omega, by omega, hLok⟩
              | tail b hx =>
                obtain ⟨h1, h2, h3⟩ := hmem2 x hx
                exact ⟨by omega, by omega, h3⟩
            · rw [List.pairwise_cons]
              refine ⟨?_, hpair2⟩
              intro x hx
              obtain ⟨h1, -, -⟩ := hmem2 x hx
              omega

theorem resultOk_reverse (env : Env) (cluster_folder : String)
    (ports? : Option (List Nat)) (n inUseFuel k : Nat) (ready : List Launched)
    (hinv : StateInv env cluster_folder ports? n inUseFuel k [] ready) :
    ResultOk env cluster_folder ports? n inUseFuel ready.reverse := by
  obtain ⟨hpair, hmem, hfree⟩ := hinv
  constructor
  · rw [List.pairwise_reverse]
    simp only [List.nil_append] at hpair
    exact hpair.imp fun h => h.symm
  · intro l hl
    rw [List.mem_reverse] at hl
    exact ⟨(hmem l (by simp [hl])).2, hfree l hl⟩

theorem check_servers_loop_ok (env : Env) (host cluster_folder : String)
    (ports? : Option (List Nat)) (pidFuel inUseFuel readyFuel n : Nat) :
    ∀ (fuel : Nat) (toCheck ready : List Launched) (k : Nat)
      (res : List Launched) (evs : List Ev),
    check_servers_loop env host cluster_folder ports? pidFuel inUseFuel readyFuel
      fuel toCheck ready k = (.ok res, evs) →
    StateInv env cluster_folder ports? n inUseFuel k toCheck ready →
    res.length = toCheck.length + ready.length ∧
    ResultOk env cluster_folder ports? n inUseFuel res := by
  intro fuel
  induction fuel with
  | zero =>
    intro toCheck ready k res evs h hinv
    cases toCheck with
    | nil =>
      rw [check_servers_loop] at h
      have h1 : (Except.ok ready.reverse : Except String (List Launched)) = .ok res :=
        congrArg Prod.fst h
      cases h1
      exact ⟨by simp, resultOk_reverse env cluster_folder ports? n inUseFuel k ready hinv⟩
    | cons a as =>
      rw [check_servers_loop] at h
      exact absurd (congrArg Prod.fst h) (by simp)
  | succ fuel ih =>
    intro toCheck ready k res evs h hinv
    cases toCheck with
    | nil =>
      rw [check_servers_loop] at h
      have h1 : (Except.ok ready.reverse : Except String (List Launched)) = .ok res :=
        congrArg Prod.fst h
      cases h1
      exact ⟨by simp, resultOk_reverse env cluster_folder ports? n inUseFuel k ready hinv⟩
    | cons a as =>
      rw [check_servers_loop] at h
      generalize hl : (a :: as).get
          ⟨env.pick fuel % (a :: as).length, Nat.mod_lt _ (Nat.succ_pos as.length)⟩ = l at h
      generalize hrest : (a :: as).eraseIdx (env.pick fuel % (a :: as).length) = rest at h
      have hmem_l : l ∈ a :: as := hl ▸ List.get_mem _ _ _
      have hperm : (a :: as).Perm (l :: rest) := by
        rw [← hl, ← hrest]
        exact perm_get_cons_eraseIdx _ _ _
      have hrestlen : rest.length = as.length := by
        have h1 := List.length_eraseIdx (a :: as) (env.pick fuel % (a :: as).length)
        have h2 : env.pick fuel % (a :: as).length < (a :: as).length :=
          Nat.mod_lt _ (Nat.succ_pos as.length)
        rw [hrest, if_pos h2] at h1
        simpa using h1
      have hrest_sub : ∀ x ∈ rest, x ∈ a :: as := by
        intro x hx
        exact (hperm.mem_iff.mpr (List.mem_cons_of_mem l hx))
      obtain ⟨hpair, hmemInv, hfree⟩ := hinv
      have hpermApp : ((a :: as) ++ ready).Perm (l :: (rest ++ ready)) := by
        simpa using hperm.append_right ready
      have hpairCons : List.Pairwise (fun x y : Launched => x.idx ≠ y.idx) (l :: (rest ++ ready)) :=
        (List.Perm.pairwise_iff (fun h => h.symm) hpermApp).mp hpair
      split at h
      · -- a conflict was found in the popped node's log
        rename_i hiu
        split at h
        · -- explicit ports: the operation raises
          exact absurd (congrArg Prod.fst h) (by simp)
        · -- auto ports: relaunch on a fresh port
          rename_i hport
          have hports_none : ports? = none := Option.not_isSome_iff_eq_none.mp hport
          split at h
          · -- the relaunch itself failed: the operation raises
            exact absurd (congrArg Prod.fst h) (by simp)
          · rename_i l2 evs1 hstart
            split at h
            rename_i r evs2 hrec
            have hr : r = .ok res := by
              have := congrArg Prod.fst h
              simpa using this
            subst hr
            obtain ⟨hidx2, hprim2, -, hfold2, -, hfp2⟩ :=
              start_server_ok_props env k host none cluster_folder pidFuel l2 evs1 hstart
            have hLok2 : LaunchedOk env cluster_folder ports? n l2 := by
              refine ⟨?_, hprim2, hfold2⟩
              rw [hidx2, portAssigned.eq_def, hports_none]
              exact hfp2 rfl
            have hmemIdxLt : ∀ x ∈ rest ++ ready, x.idx < k := by
              intro x hx
              rcases List.mem_append.mp hx with hx | hx
              · exact (hmemInv x (List.mem_append.mpr (Or.inl (hrest_sub x hx)))).1
              · exact (hmemInv x (List.mem_append.mpr (Or.inr hx))).1
            have hinv2 : StateInv env cluster_folder ports? n inUseFuel (k + 1)
                (l2 :: rest) ready := by
              refine ⟨?_, ?_, hfree⟩
              · show List.Pairwise _ (l2 :: (rest ++ ready))
                rw [List.pairwise_cons]
                refine ⟨?_, hpairCons.sublist (List.sublist_cons_self l _)⟩
                intro x hx
                have := hmemIdxLt x hx
                omega
              · intro x hx
                rcases List.mem_cons.mp hx with hx | hx
                · subst hx
                  exact ⟨by omega, hLok2⟩
                · have hx' := hmemIdxLt x hx
                  rcases List.mem_append.mp hx with hy | hy
                  · exact ⟨by omega,
                      (hmemInv x (List.mem_append.mpr (Or.inl (hrest_sub x hy)))).2⟩
                  · exact ⟨by omega, (hmemInv x (List.mem_append.mpr (Or.inr hy))).2⟩
            obtain ⟨hlen, hresOk⟩ := ih (l2 :: rest) ready (k + 1) res evs2 hrec hinv2
            refine ⟨?_, hresOk⟩
            rw [hlen]
            simp [hrestlen]
      · -- no conflict: the node must answer the readiness probe
        rename_i hiu
        split at h
        · -- ready: the node joins the ready list
          rename_i hready
          have hLokl : l.idx < k ∧ LaunchedOk env cluster_folder ports? n l :=
            hmemInv l (List.mem_append.mpr (Or.inl hmem_l))
          have hinv2 : StateInv env cluster_folder ports? n inUseFuel k rest (l :: ready) := by
            refine ⟨?_, ?_, ?_⟩
            · have : (rest ++ l :: ready).Perm (l :: (rest ++ ready)) := List.perm_middle
              exact (List.Perm.pairwise_iff (fun h => h.symm) this).mpr hpairCons
            · intro x hx
              have : x ∈ (a :: as) ++ ready := by
                refine (hpermApp.mem_iff).mpr ?_
                have := (@List.perm_middle _ l rest ready).mem_iff.mp hx
                simpa using this
              exact hmemInv x this
            · intro x hx
              rcases List.mem_cons.mp hx with hx | hx
              · subst hx
                have hfold := hLokl.2.2.2
                rw [inUseFor, ← hfold]
                simpa using hiu
              · exact hfree x hx
          obtain ⟨hlen, hresOk⟩ := ih rest (l :: ready) k res evs h hinv2
          refine ⟨?_, hresOk⟩
          rw [hlen]
          simp [hrestlen]
          omega
        · -- readiness timed out: the operation raises
          exact absurd (congrArg Prod.fst h) (by simp)

theorem create_servers_ok (env : Env) (host : String) (S R : Nat)
    (ports? : Option (List Nat)) (cluster_folder : String) (tls : Bool)
    (pidFuel inUseFuel readyFuel loopFuel : Nat)
    (servers : List Server) (evs : List Ev)
    (h : create_servers env host S R ports? cluster_folder tls pidFuel inUseFuel
        readyFuel loopFuel = (.ok servers, evs)) :
    ∃ ls : List Launched, servers = ls.map (fun l => l.server) ∧
      ls.length = S * (1 + R) ∧
      ResultOk env cluster_folder ports? (S * (1 + R)) inUseFuel ls := by
  rw [create_servers] at h
  split at h
  · exact absurd (congrArg Prod.fst h) (by simp)
  · cases hli : launch_initial env host cluster_folder ports? pidFuel 0 (S * (1 + R)) with
    | mk r1 evs1 =>
      rw [hli] at h
      cases r1 with
      | error e => exact absurd (congrArg Prod.fst h) (by simp)
      | ok ls0 =>
        dsimp only at h
        cases hcl : check_servers_loop env host cluster_folder ports? pidFuel inUseFuel
            readyFuel loopFuel ls0 [] (S * (1 + R)) with
        | mk r2 evs2 =>
          rw [hcl] at h
          cases r2 with
          | error e => exact absurd (congrArg Prod.fst h) (by simp)
          | ok res =>
            have hserv : res.map (fun l => l.server) = servers := by
              simpa using congrArg Prod.fst h
            obtain ⟨hlen0, hmem0, hpair0⟩ :=
              launch_initial_ok env host cluster_folder ports? pidFuel (S * (1 + R))
                (S * (1 + R)) 0 ls0 evs1 hli (by omega)
            have hinv : StateInv env cluster_folder ports? (S * (1 + R)) inUseFuel
                (S * (1 + R)) ls0 [] := by
              refine ⟨?_, ?_, ?_⟩
              · simpa using hpair0.imp fun hlt => Nat.ne_of_lt hlt
              · intro l hl
                simp only [List.append_nil] at hl
                obtain ⟨h1, h2, h3⟩ := hmem0 l hl
                exact ⟨by omega, h3⟩
              · intro l hl
                exact absurd hl (List.not_mem_nil l)
            obtain ⟨hlen, hresOk⟩ :=
              check_servers_loop_ok env host cluster_folder ports? pidFuel inUseFuel
                readyFuel (S * (1 + R)) loopFuel ls0 [] (S * (1 + R)) res evs2 hcl hinv
            refine ⟨res, hserv.symm, ?_, hresOk⟩
            rw [hlen, hlen0]
            simp

/-- C1: a successful `create_servers` run for S shards and R replicas returns
exactly S*(1+R) ready servers, with pairwise distinct ports.  The port
uniqueness additionally assumes `ConflictSound`: when the oracle would hand
the same port to two distinct launches, the conflict log check for that port
reports it — which is what the underlying OS guarantees, since at most one
process can bind the port and the loser logs the address-in-use error.  This
covers user-supplied and auto-allocated ports, including relaunches. -/
theorem C1_count_and_unique_ports (env : Env) (host : String) (S R : Nat)
    (ports? : Option (List Nat)) (cluster_folder : String) (tls : Bool)
    (pidFuel inUseFuel readyFuel loopFuel : Nat) (servers : List Server)
    (evs : List Ev) (hS : 1 ≤ S)
    (hsound : ConflictSound env cluster_folder ports? (S * (1 + R)) inUseFuel)
    (h : create_servers env host S R ports? cluster_folder tls pidFuel inUseFuel
        readyFuel loopFuel = (.ok servers, evs)) :
    servers.length = S * (1 + R) ∧
    servers.Pairwise fun s1 s2 => s1.port ≠ s2.port := by
  obtain ⟨ls, hmap, hlen, hpair, hmem⟩ :=
    create_servers_ok env host S R ports? cluster_folder tls pidFuel inUseFuel
      readyFuel loopFuel servers evs h
  constructor
  · rw [hmap, List.length_map, hlen]
  · rw [hmap, List.pairwise_map]
    refine hpair.imp_of_mem ?_
    intro x y hx hy hne hpp
    obtain ⟨⟨hpx, -, -⟩, hfx⟩ := hmem x hx
    obtain ⟨⟨hpy, -, -⟩, hfy⟩ := hmem y hy
    rw [← hpp] at hpy
    have := hsound x.idx y.idx x.server.port hne hpx hpy
    rw [this] at hfx
    exact Bool.true_eq_false ▸ hfx ▸ rfl

/-- Closed instance of C1: a 1-shard, 1-replica run over the well-behaved
world `envW` returns 2 ready servers on distinct ports 7000 and 7001. -/
theorem C1_witness :
    create_servers envW "127.0.0.1" 1 1 none "cf" false 1 1 1 4 =
      (.ok [{ host := "127.0.0.1", port := 7000, pid := -1, is_primary := true },
            { host := "127.0.0.1", port := 7001, pid := -1, is_primary := true }],
        [Ev.allocPort 0 7000, Ev.mkNodeDir "cf/7000", Ev.spawn 0 7000,
         Ev.allocPort 1 7001, Ev.mkNodeDir "cf/7001", Ev.spawn 1 7001]) ∧
    ([{ host := "127.0.0.1", port := 7000, pid := -1, is_primary := true },
      { host := "127.0.0.1", port := 7001, pid := -1, is_primary := true }]
        : List Server).length = 1 * (1 + 1) ∧
    ([{ host := "127.0.0.1", port := 7000, pid := -1, is_primary := true },
      { host := "127.0.0.1", port := 7001, pid := -1, is_primary := true }]
        : List Server).Pairwise fun s1 s2 => s1.port ≠ s2.port := by
  have hsound : ConflictSound envW "cf" none (1 * (1 + 1)) 1 := by
    intro j k p hne hj hk
    have h1 : 7000 + j = p := Option.some.inj hj
    have h2 : 7000 + k = p := Option.some.inj hk
    exact absurd (by omega : j = k) hne
  have h : create_servers envW "127.0.0.1" 1 1 none "cf" false 1 1 1 4 =
      (.ok [{ host := "127.0.0.1", port := 7000, pid := -1, is_primary := true },
            { host := "127.0.0.1", port := 7001, pid := -1, is_primary := true }],
        [Ev.allocPort 0 7000, Ev.mkNodeDir "cf/7000", Ev.spawn 0 7000,
         Ev.allocPort 1 7001, Ev.mkNodeDir "cf/7001", Ev.spawn 1 7001]) := by
    decide
  exact ⟨h, C1_count_and_unique_ports envW "127.0.0.1" 1 1 none "cf" false 1 1 1 4
    _ _ (by decide) hsound h⟩

theorem start_server_none_evs (env : Env) (k : Nat) (host cluster_folder : String)
    (pidFuel p : Nat) (hfp : env.freePort k = some p) :
    (start_server env k host none cluster_folder pidFuel).snd =
      [Ev.allocPort k p, Ev.mkNodeDir (cluster_folder ++ "/" ++ toString p),
       Ev.spawn k p] := by
  rw [start_server.eq_def, hfp]
  dsimp only
  by_cases hs : env.spawnOk k = true
  · rw [if_pos hs]
    rfl
  · rw [if_neg hs]
    rfl


theorem check_loop_conflict_relaunch (env : Env) (host cluster_folder : String)
    (pidFuel inUseFuel readyFuel fuel k p : Nat) (a : Launched)
    (as ready : List Launched) (l : Launched)
    (hl : l = (a :: as).get
      ⟨env.pick fuel % (a :: as).length, Nat.mod_lt _ (Nat.succ_pos as.length)⟩)
    (hiu : is_address_already_in_use
      (env.fileContent (l.folder ++ "/server.log")) inUseFuel = true)
    (hfp : env.freePort k = some p) :
    Ev.removeDir l.folder ∈ (check_servers_loop env host cluster_folder none
      pidFuel inUseFuel readyFuel (fuel + 1) (a :: as) ready k).snd ∧
    Ev.allocPort k p ∈ (check_servers_loop env host cluster_folder none
      pidFuel inUseFuel readyFuel (fuel + 1) (a :: as) ready k).snd ∧
    Ev.spawn k p ∈ (check_servers_loop env host cluster_folder none
      pidFuel inUseFuel readyFuel (fuel + 1) (a :: as) ready k).snd := by
  subst hl
  rw [check_servers_loop, if_pos hiu,
    if_neg (by simp : ¬((none : Option (List Nat)).isSome = true))]
  cases hstart : start_server env k host none cluster_folder pidFuel with
  | mk r evs1 =>
    have hevs1 : evs1 = [Ev.allocPort k p,
        Ev.mkNodeDir (cluster_folder ++ "/" ++ toString p), Ev.spawn k p] := by
      have h2 := start_server_none_evs env k host cluster_folder pidFuel p hfp
      rw [hstart] at h2
      exact h2
    cases r with
    | error e =>
      dsimp only
      subst hevs1
      simp
    | ok l2 =>
      dsimp only
      cases hrec : check_servers_loop env host cluster_folder none pidFuel inUseFuel
          readyFuel fuel
          (l2 :: (a :: as).eraseIdx (env.pick fuel % (a :: as).length)) ready (k + 1) with
      | mk r2 evs2 =>
        dsimp only
        subst hevs1
        simp

theorem check_loop_conflict_fatal (env : Env) (host cluster_folder : String)
    (ps : List Nat) (pidFuel inUseFuel readyFuel fuel k : Nat) (a : Launched)
    (as ready : List Launched) (l : Launched)
    (hl : l = (a :: as).get
      ⟨env.pick fuel % (a :: as).length, Nat.mod_lt _ (Nat.succ_pos as.length)⟩)
    (hiu : is_address_already_in_use
      (env.fileContent (l.folder ++ "/server.log")) inUseFuel = true) :
    check_servers_loop env host cluster_folder (some ps) pidFuel inUseFuel readyFuel
      (fuel + 1) (a :: as) ready k =
      (.error "address already in use", [Ev.removeDir l.folder]) := by
  subst hl
  rw [check_servers_loop, if_pos hiu, if_pos (Option.isSome_some : (some ps).isSome = true)]

theorem check_loop_some_no_spawn (env : Env) (host cluster_folder : String)
    (ps : List Nat) (pidFuel inUseFuel readyFuel : Nat) :
    ∀ (fuel : Nat) (toCheck ready : List Launched) (k : Nat) (ev : Ev),
    ev ∈ (check_servers_loop env host cluster_folder (some ps) pidFuel inUseFuel
      readyFuel fuel toCheck ready k).snd →
    isSpawnEv ev = false := by
  intro fuel
  induction fuel with
  | zero =>
    intro toCheck ready k ev hev
    cases toCheck with
    | nil => simp [check_servers_loop] at hev
    | cons a as => simp [check_servers_loop] at hev
  | succ fuel ih =>
    intro toCheck ready k ev hev
    cases toCheck with
    | nil => simp [check_servers_loop] at hev
    | cons a as =>
      rw [check_servers_loop] at hev
      split at hev
      · rw [if_pos (Option.isSome_some : (some ps).isSome = true)] at hev
        have : ev = Ev.removeDir ((a :: as).get
            ⟨env.pick fuel % (a :: as).length, Nat.mod_lt _ (Nat.succ_pos as.length)⟩).folder := by
          simpa using hev
        subst this
        rfl
      · split at hev
        · exact ih _ _ _ _ hev
        · simp at hev

theorem check_loop_some_ok_all_free (env : Env) (host cluster_folder : String)
    (ps : List Nat) (pidFuel inUseFuel readyFuel : Nat) :
    ∀ (fuel : Nat) (toCheck ready : List Launched) (k : Nat)
      (res : List Launched) (evs : List Ev),
    check_servers_loop env host cluster_folder (some ps) pidFuel inUseFuel readyFuel
      fuel toCheck ready k = (.ok res, evs) →
    ∀ l ∈ toCheck, is_address_already_in_use
      (env.fileContent (l.folder ++ "/server.log")) inUseFuel = false := by
  intro fuel
  induction fuel with
  | zero =>
    intro toCheck ready k res evs h l hl
    cases toCheck with
    | nil => exact absurd hl (List.not_mem_nil l)
    | cons a as =>
      rw [check_servers_loop] at h
      exact absurd (congrArg Prod.fst h) (by simp)
  | succ fuel ih =>
    intro toCheck ready k res evs h l hl
    cases toCheck with
    | nil => exact absurd hl (List.not_mem_nil l)
    | cons a as =>
      rw [check_servers_loop] at h
      generalize hpop : (a :: as).get
          ⟨env.pick fuel % (a :: as).length, Nat.mod_lt _ (Nat.succ_pos as.length)⟩ = x at h
      generalize hrest : (a :: as).eraseIdx (env.pick fuel % (a :: as).length) = rest at h
      have hperm : (a :: as).Perm (x :: rest) := by
        rw [← hpop, ← hrest]
        exact perm_get_cons_eraseIdx _ _ _
      split at h
      · rename_i hiu
        rw [if_pos (Option.isSome_some : (some ps).isSome = true)] at h
        exact absurd (congrArg Prod.fst h) (by simp)
      · rename_i hiu
        split at h
        · rcases List.mem_cons.mp (hperm.mem_iff.mp hl) with hl2 | hl2
          · subst hl2
            exact Bool.not_eq_true _ ▸ hiu
          · exact ih rest (x :: ready) k res evs h l hl2
        · exact absurd (congrArg Prod.fst h) (by simp)

/-- C2: port-conflict handling after launch.  Part 1: with auto-chosen ports
(no explicit list), when the popped pending node's log shows address-in-use
before Ready (`is_address_already_in_use` answers true), the loop removes
that node's working directory and relaunches it via a fresh `next_free_port`
call — the trace records the removal, the fresh allocation and the new spawn.
Part 2: such a run can still succeed overall — in the world `envC2`, where
the node launched on port 7000 collides, `create_servers` still returns the
full ready list after relaunching on port 7002.  Part 3: with an explicit
port list the same situation raises immediately, the step's whole trace being
just the folder removal.  Part 4: with an explicit port list the check loop
never records any spawn (no node is ever relaunched).  Part 5: with an
explicit port list a run whose pending set contains a conflicting node can
never return ok. -/
theorem C2_conflict_recovery_and_fatal :
    (∀ (env : Env) (host cluster_folder : String)
       (pidFuel inUseFuel readyFuel fuel k p : Nat) (a : Launched)
       (as ready : List Launched) (l : Launched),
      l = (a :: as).get ⟨env.pick fuel % (a :: as).length,
        Nat.mod_lt _ (Nat.succ_pos as.length)⟩ →
      is_address_already_in_use
        (env.fileContent (l.folder ++ "/server.log")) inUseFuel = true →
      env.freePort k = some p →
      Ev.removeDir l.folder ∈ (check_servers_loop env host cluster_folder none
        pidFuel inUseFuel readyFuel (fuel + 1) (a :: as) ready k).snd ∧
      Ev.allocPort k p ∈ (check_servers_loop env host cluster_folder none
        pidFuel inUseFuel readyFuel (fuel + 1) (a :: as) ready k).snd ∧
      Ev.spawn k p ∈ (check_servers_loop env host cluster_folder none
        pidFuel inUseFuel readyFuel (fuel + 1) (a :: as) ready k).snd) ∧
    (create_servers envC2 "127.0.0.1" 1 1 none "cf" false 1 1 1 5 =
      (.ok [{ host := "127.0.0.1", port := 7002, pid := -1, is_primary := true },
            { host := "127.0.0.1", port := 7001, pid := -1, is_primary := true }],
        [Ev.allocPort 0 7000, Ev.mkNodeDir "cf/7000", Ev.spawn 0 7000,
         Ev.allocPort 1 7001, Ev.mkNodeDir "cf/7001", Ev.spawn 1 7001,
         Ev.removeDir "cf/7000",
         Ev.allocPort 2 7002, Ev.mkNodeDir "cf/7002", Ev.spawn 2 7002])) ∧
    (∀ (env : Env) (host cluster_folder : String) (ps : List Nat)
       (pidFuel inUseFuel readyFuel fuel k : Nat) (a : Launched)
       (as ready : List Launched) (l : Launched),
      l = (a :: as).get ⟨env.pick fuel % (a :: as).length,
        Nat.mod_lt _ (Nat.succ_pos as.length)⟩ →
      is_address_already_in_use
        (env.fileContent (l.folder ++ "/server.log")) inUseFuel = true →
      check_servers_loop env host cluster_folder (some ps) pidFuel inUseFuel
        readyFuel (fuel + 1) (a :: as) ready k =
        (.error "address already in use", [Ev.removeDir l.folder])) ∧
    (∀ (env : Env) (host cluster_folder : String) (ps : List Nat)
       (pidFuel inUseFuel readyFuel fuel : Nat) (toCheck ready : List Launched)
       (k : Nat) (ev : Ev),
      ev ∈ (check_servers_loop env host cluster_folder (some ps) pidFuel inUseFuel
        readyFuel fuel toCheck ready k).snd →
      isSpawnEv ev = false) ∧
    (∀ (env : Env) (host cluster_folder : String) (ps : List Nat)
       (pidFuel inUseFuel readyFuel fuel : Nat) (toCheck ready : List Launched)
       (k : Nat) (l : Launched),
      l ∈ toCheck →
      is_address_already_in_use
        (env.fileContent (l.folder ++ "/server.log")) inUseFuel = true →
      ∀ (res : List Launched) (evs : List Ev),
      check_servers_loop env host cluster_folder (some ps) pidFuel inUseFuel
        readyFuel fuel toCheck ready k ≠ (.ok res, evs)) := by
  refine ⟨?_, by decide, ?_, ?_, ?_⟩
  · intro env host cluster_folder pidFuel inUseFuel readyFuel fuel k p a as ready l hl hiu hfp
    exact check_loop_conflict_relaunch env host cluster_folder pidFuel inUseFuel
      readyFuel fuel k p a as ready l hl hiu hfp
  · intro env host cluster_folder ps pidFuel inUseFuel readyFuel fuel k a as ready l hl hiu
    exact check_loop_conflict_fatal env host cluster_folder ps pidFuel inUseFuel
      readyFuel fuel k a as ready l hl hiu
  · intro env host cluster_folder ps pidFuel inUseFuel readyFuel fuel toCheck ready k ev hev
    exact check_loop_some_no_spawn env host cluster_folder ps pidFuel inUseFuel
      readyFuel fuel toCheck ready k ev hev
  · intro env host cluster_folder ps pidFuel inUseFuel readyFuel fuel toCheck ready k l hl hiu res evs heq
    have := check_loop_some_ok_all_free env host cluster_folder ps pidFuel inUseFuel
      readyFuel fuel toCheck ready k res evs heq l hl
    rw [hiu] at this
    exact absurd this (by simp)

/-- Closed instance of C2 at a concrete one-node pending set over `envC2`. -/
theorem C2_witness :
    (Ev.removeDir "cf/7000" ∈ (check_servers_loop envC2 "127.0.0.1" "cf" none 1 1 1 1
      [{ idx := 0, server := { host := "127.0.0.1", port := 7000, pid := -1, is_primary := true },
         folder := "cf/7000" }] [] 1).snd ∧
     Ev.allocPort 1 7001 ∈ (check_servers_loop envC2 "127.0.0.1" "cf" none 1 1 1 1
      [{ idx := 0, server := { host := "127.0.0.1", port := 7000, pid := -1, is_primary := true },
         folder := "cf/7000" }] [] 1).snd ∧
     Ev.spawn 1 7001 ∈ (check_servers_loop envC2 "127.0.0.1" "cf" none 1 1 1 1
      [{ idx := 0, server := { host := "127.0.0.1", port := 7000, pid := -1, is_primary := true },
         folder := "cf/7000" }] [] 1).snd) ∧
    check_servers_loop envC2 "127.0.0.1" "cf" (some [7000]) 1 1 1 1
      [{ idx := 0, server := { host := "127.0.0.1", port := 7000, pid := -1, is_primary := true },
         folder := "cf/7000" }] [] 1 =
      (.error "address already in use", [Ev.removeDir "cf/7000"]) :=
  ⟨C2_conflict_recovery_and_fatal.1 envC2 "127.0.0.1" "cf" 1 1 1 0 1 7001
      { idx := 0, server := { host := "127.0.0.1", port := 7000, pid := -1, is_primary := true },
        folder := "cf/7000" } [] []
      { idx := 0, server := { host := "127.0.0.1", port := 7000, pid := -1, is_primary := true },
        folder := "cf/7000" } rfl (by decide) rfl,
   C2_conflict_recovery_and_fatal.2.2.1 envC2 "127.0.0.1" "cf" [7000] 1 1 1 0 1
      { idx := 0, server := { host := "127.0.0.1", port := 7000, pid := -1, is_primary := true },
        folder := "cf/7000" } [] []
      { idx := 0, server := { host := "127.0.0.1", port := 7000, pid := -1, is_primary := true },
        folder := "cf/7000" } rfl (by decide)⟩

/-- C9: a (truthy) explicit port list whose length differs from the effective
total node count S*(1+R) makes the start action reject with the parser error
and an EMPTY event trace — before the cluster folder is created, before any
port is allocated and before any server process is spawned.  (`S` here is the
effective shard count: `main` forces it to 1 when cluster mode is off.) -/
theorem C9_reject_before_side_effects (env : Env) (cluster_mode : Bool)
    (shard_count replica_count : Nat) (ps : List Nat) (tls : Bool)
    (host cluster_folder : String)
    (pidFuel inUseFuel readyFuel loopFuel msgFuel : Nat)
    (hps : ps ≠ [])
    (hlen : ps.length ≠ (if cluster_mode then shard_count else 1) * (1 + replica_count)) :
    main_start env cluster_mode shard_count replica_count (some ps) tls host
      cluster_folder pidFuel inUseFuel readyFuel loopFuel msgFuel =
      (.error "The number of ports must be equal to the total number of nodes", []) := by
  rw [main_start]
  have hc : portsLenMismatch (some ps)
      ((if cluster_mode then shard_count else 1) * (1 + replica_count)) = true := by
    cases cluster_mode <;> simp_all [portsLenMismatch]
  rw [if_pos hc]

/-- Closed instance of C9: three ports supplied for a standalone (effective
shard count 1), zero-replica start are rejected with no events. -/
theorem C9_witness :
    main_start envW false 3 0 (some [6000, 6001, 6002]) false "127.0.0.1" "cf"
      1 1 1 4 2 =
      (.error "The number of ports must be equal to the total number of nodes", []) :=
  C9_reject_before_side_effects envW false 3 0 [6000, 6001, 6002] false "127.0.0.1"
    "cf" 1 1 1 4 2 (by decide) (by decide)

/-- C10: every `Server` is constructed with `is_primary = True` (part 1: any
successful `start_server` yields a primary-flagged server), and the
non-cluster start path never rewrites the flag: when `main_start` without
cluster mode succeeds — in particular after standalone replication set up by
REPLICAOF commands — every returned server still has `is_primary = True`
(part 2).  Only cluster-mode convergence (`wait_for_all_topology_views`)
updates the flag, so recorded roles distinguish primaries from replicas only
in cluster mode. -/
theorem C10_is_primary_flag :
    (∀ (env : Env) (k : Nat) (host : String) (port? : Option Nat)
       (cluster_folder : String) (pidFuel : Nat) (l : Launched) (evs : List Ev),
      start_server env k host port? cluster_folder pidFuel = (.ok l, evs) →
      l.server.is_primary = true) ∧
    (∀ (env : Env) (shard_count replica_count : Nat) (ports? : Option (List Nat))
       (tls : Bool) (host cluster_folder : String)
       (pidFuel inUseFuel readyFuel loopFuel msgFuel : Nat)
       (servers : List Server) (evs : List Ev),
      main_start env false shard_count replica_count ports? tls host cluster_folder
        pidFuel inUseFuel readyFuel loopFuel msgFuel = (.ok servers, evs) →
      ∀ s ∈ servers, s.is_primary = true) := by
  constructor
  · intro env k host port? cluster_folder pidFuel l evs h
    exact (start_server_ok_props env k host port? cluster_folder pidFuel l evs h).2.1
  · intro env shard_count replica_count ports? tls host cluster_folder
      pidFuel inUseFuel readyFuel loopFuel msgFuel servers evs h s hs
    rw [main_start] at h
    simp only [Bool.false_eq_true, if_false] at h
    by_cases hpm : portsLenMismatch ports? (1 * (1 + replica_count)) = true
    · rw [if_pos hpm] at h
      exact absurd (congrArg Prod.fst h) (by simp)
    · rw [if_neg hpm] at h
      cases hcs : create_servers env host 1 replica_count ports? cluster_folder tls
          pidFuel inUseFuel readyFuel loopFuel with
        | mk r1 evs1 =>
          have hall : ∀ servers0, r1 = .ok servers0 → ∀ x ∈ servers0, x.is_primary = true := by
            intro servers0 hr x hx
            subst hr
            obtain ⟨ls, hmap, -, -, hmem⟩ :=
              create_servers_ok env host 1 replica_count ports? cluster_folder tls
                pidFuel inUseFuel readyFuel loopFuel servers0 evs1 hcs
            rw [hmap] at hx
            obtain ⟨l, hl, hlx⟩ := List.mem_map.mp hx
            rw [← hlx]
            exact (hmem l hl).1.2.1
          rw [hcs] at h
          cases r1 with
          | error e =>
            exact absurd (congrArg Prod.fst h) (by simp)
          | ok servers0 =>
            dsimp only at h
            split at h
            · -- replication branch
              split at h
              · exact absurd (congrArg Prod.fst h) (by simp)
              · have hserv : servers0 = servers := by simpa using congrArg Prod.fst h
                subst hserv
                exact hall servers0 rfl s hs
            · have hserv : servers0 = servers := by simpa using congrArg Prod.fst h
              subst hserv
              exact hall servers0 rfl s hs

/-- Closed instance of C10: a standalone run with one replica returns both
servers with `is_primary = True`, the replica included. -/
theorem C10_witness :
    main_start envW false 3 1 none false "127.0.0.1" "cf" 1 1 1 4 2 =
      (.ok [{ host := "127.0.0.1", port := 7000, pid := -1, is_primary := true },
            { host := "127.0.0.1", port := 7001, pid := -1, is_primary := true }],
        [Ev.createFolder "cf", Ev.allocPort 0 7000, Ev.mkNodeDir "cf/7000",
         Ev.spawn 0 7000, Ev.allocPort 1 7001, Ev.mkNodeDir "cf/7001",
         Ev.spawn 1 7001, Ev.replicaOf "127.0.0.1" 7001 "127.0.0.1" 7000]) ∧
    ({ host := "127.0.0.1", port := 7001, pid := -1, is_primary := true }
      : Server).is_primary = true :=
  have h : main_start envW false 3 1 none false "127.0.0.1" "cf" 1 1 1 4 2 =
      (.ok [{ host := "127.0.0.1", port := 7000, pid := -1, is_primary := true },
            { host := "127.0.0.1", port := 7001, pid := -1, is_primary := true }],
        [Ev.createFolder "cf", Ev.allocPort 0 7000, Ev.mkNodeDir "cf/7000",
         Ev.spawn 0 7000, Ev.allocPort 1 7001, Ev.mkNodeDir "cf/7001",
         Ev.spawn 1 7001, Ev.replicaOf "127.0.0.1" 7001 "127.0.0.1" 7000]) := by decide
  ⟨h, C10_is_primary_flag.2 envW 3 1 none false "127.0.0.1" "cf" 1 1 1 4 2 _ _ h
    { host := "127.0.0.1", port := 7001, pid := -1, is_primary := true } (by simp)⟩

theorem wait_for_a_message_in_logs_ok_iff (env : Env) (message : String)
    (server_ports : Option (List String)) (msgFuel : Nat) :
    ∀ dirs : List String,
    wait_for_a_message_in_logs env dirs message server_ports msgFuel = .ok () ↔
      ∀ d ∈ dirs, keepDir server_ports (baseName d) = true →
        wait_for_message (env.fileContent (d ++ "/server.log")) message msgFuel = true := by
  intro dirs
  induction dirs with
  | nil => simp [wait_for_a_message_in_logs]
  | cons d ds ih =>
    rw [wait_for_a_message_in_logs]
    by_cases hk : keepDir server_ports (baseName d) = true
    · rw [if_pos hk]
      by_cases hw : wait_for_message (env.fileContent (d ++ "/server.log")) message msgFuel = true
      · rw [if_pos hw, ih]
        constructor
        · intro hall x hx hkx
          rcases List.mem_cons.mp hx with rfl | hx2
          · exact hw
          · exact hall x hx2 hkx
        · intro hall x hx hkx
          exact hall x (List.mem_cons_of_mem d hx) hkx
      · rw [if_neg hw]
        constructor
        · intro habs
          exact absurd habs (by simp)
        · intro hall
          exact absurd (hall d (List.mem_cons_self d ds) hk) hw
    · rw [if_neg hk, ih]
      constructor
      · intro hall x hx hkx
        rcases List.mem_cons.mp hx with rfl | hx2
        · exact absurd hkx hk
        · exact hall x hx2 hkx
      · intro hall x hx hkx
        exact hall x (List.mem_cons_of_mem d hx) hkx

theorem repl_loop_ok_iff (env : Env) (primary : Server) :
    ∀ (rest : List Server) (i : Nat),
    (repl_loop env primary i rest).fst = .ok () ↔
      ∀ j, j < rest.length → replAck env (i + j) = true := by
  intro rest
  induction rest with
  | nil => intro i; simp [repl_loop]
  | cons s ss ih =>
    intro i
    rw [repl_loop]
    cases hc : env.replCmd i with
    | timedOut =>
      dsimp only
      constructor
      · intro habs; exact absurd habs (by simp)
      · intro hall
        have h0 := hall 0 (Nat.succ_pos ss.length)
        rw [Nat.add_zero, replAck, hc] at h0
        simp at h0
    | res out err =>
      dsimp only
      by_cases hfail : (err ≠ "" || !strContains out "OK") = true
      · rw [if_pos hfail]
        constructor
        · intro habs; exact absurd habs (by simp)
        · intro hall
          have h0 := hall 0 (Nat.succ_pos ss.length)
          rw [Nat.add_zero, replAck, hc] at h0
          simp only [Bool.or_eq_true, decide_eq_true_eq, Bool.not_eq_true] at hfail
          simp only [Bool.and_eq_true, beq_iff_eq] at h0
          rcases hfail with hfail | hfail
          · exact (hfail h0.1).elim
          · rw [h0.2] at hfail
            simp at hfail
      · rw [if_neg hfail]
        cases hrec : repl_loop env primary (i + 1) ss with
        | mk r evs =>
          dsimp only
          have ihh := ih (i + 1)
          rw [hrec] at ihh
          constructor
          · intro hr j hj
            cases j with
            | zero =>
              rw [Nat.add_zero, replAck, hc]
              simp only [Bool.or_eq_true, decide_eq_true_eq, Bool.not_eq_true] at hfail
              push_neg at hfail
              dsimp only
              have h2 : strContains out "OK" = true := by
                cases hx : strContains out "OK"
                · exact absurd (by rw [hx]; rfl) hfail.2
                · rfl
              simp [hfail.1, h2]
            | succ j =>
              have := ihh.mp hr j (by simpa using hj)
              rw [show i + (j + 1) = i + 1 + j by omega]
              exact this
          · intro hall
            refine ihh.mpr ?_
            intro j hj
            have := hall (j + 1) (by simpa using hj)
            rw [show i + 1 + j = i + (j + 1) by omega]
            exact this

theorem repl_loop_snd_ok (env : Env) (primary : Server) :
    ∀ (rest : List Server) (i : Nat),
    (repl_loop env primary i rest).fst = .ok () →
    (repl_loop env primary i rest).snd =
      rest.map fun s => Ev.replicaOf s.host s.port primary.host primary.port := by
  intro rest
  induction rest with
  | nil => intro i _; rfl
  | cons s ss ih =>
    intro i hok
    rw [repl_loop] at hok ⊢
    cases hc : env.replCmd i with
    | timedOut =>
      rw [hc] at hok
      exact absurd hok (by simp)
    | res out err =>
      rw [hc] at hok
      dsimp only at hok ⊢
      by_cases hfail : (err ≠ "" || !strContains out "OK") = true
      · rw [if_pos hfail] at hok
        exact absurd hok (by simp)
      · rw [if_neg hfail] at hok ⊢
        cases hrec : repl_loop env primary (i + 1) ss with
        | mk r evs =>
          rw [hrec] at hok
          dsimp only at hok ⊢
          have := ih (i + 1)
          rw [hrec] at this
          rw [List.map_cons]
          exact congrArg _ (this hok)

/-- C6 counterexample: the claim says a REPLICAOF command "succeeds only on an
exact acknowledgement (any other response ... raises)".  But the source tests
`"OK" not in output` — a substring check.  Here the replica answers `JOKER`
(not the exact acknowledgement, but containing `OK`) with an empty error
stream, and the standalone replication setup still succeeds. -/
theorem C6_counterexample :
    (create_standalone_replication envW
      [{ host := "127.0.0.1", port := 7000, pid := -1, is_primary := true },
       { host := "127.0.0.1", port := 7001, pid := -1, is_primary := true }]
      ["cf/7000", "cf/7001"] 2).fst = .ok () ∧
    envW.replCmd 1 = CmdRes.res "JOKER" "" ∧
    "JOKER" ≠ "OK" ∧
    strContains "JOKER" "OK" = true := by decide

/-- C6 amended: in standalone replication the first server is the primary and
every other server gets exactly one REPLICAOF command towards it (on success
the trace is exactly one `replicaOf` event per non-primary server, in order);
the whole setup succeeds if and only if every such command comes back with an
empty error stream and an output CONTAINING `OK` (substring, not an exact
acknowledgement) and the sync-completion line is found in the log of every
directory passing the replica-port filter; the primary's own port never
passes that filter (its log is not awaited), and failure of any step is an
error. -/
theorem C6_standalone_replication (env : Env) (primary : Server)
    (rest : List Server) (dirs : List String) (msgFuel : Nat) :
    ((create_standalone_replication env (primary :: rest) dirs msgFuel).fst = .ok () ↔
      ((∀ j, j < rest.length → replAck env (1 + j) = true) ∧
       ∀ d ∈ dirs, keepDir (some (rest.map fun s => toString s.port)) (baseName d) = true →
         wait_for_message (env.fileContent (d ++ "/server.log"))
           "sync: Finished with success" msgFuel = true)) ∧
    ((create_standalone_replication env (primary :: rest) dirs msgFuel).fst = .ok () →
      (create_standalone_replication env (primary :: rest) dirs msgFuel).snd =
        rest.map fun s => Ev.replicaOf s.host s.port primary.host primary.port) ∧
    (∀ base : String, rest ≠ [] →
      (rest.map fun s => toString s.port).contains base = false →
      keepDir (some (rest.map fun s => toString s.port)) base = false) := by
  have hdrop : (((primary :: rest).map fun s => toString s.port).drop 1) =
      rest.map fun s => toString s.port := rfl
  refine ⟨?_, ?_, ?_⟩
  · rw [create_standalone_replication]
    cases hrl : repl_loop env primary 1 rest with
    | mk r1 evs1 =>
      cases r1 with
      | error e =>
        dsimp only
        constructor
        · intro habs; exact absurd habs (by simp)
        · intro hrhs
          have h2 := (repl_loop_ok_iff env primary rest 1).mpr hrhs.1
          rw [hrl] at h2
          exact absurd h2 (by simp)
      | ok u =>
        dsimp only
        rw [hdrop]
        cases hw : wait_for_a_message_in_logs env dirs "sync: Finished with success"
            (some (rest.map fun s => toString s.port)) msgFuel with
        | error e =>
          constructor
          · intro habs; exact absurd habs (by simp)
          · intro hrhs
            have h2 := (wait_for_a_message_in_logs_ok_iff env "sync: Finished with success"
              (some (rest.map fun s => toString s.port)) msgFuel dirs).mpr hrhs.2
            rw [hw] at h2
            exact absurd h2 (by simp)
        | ok v =>
          constructor
          · intro _
            refine ⟨(repl_loop_ok_iff env primary rest 1).mp (by rw [hrl]), ?_⟩
            exact (wait_for_a_message_in_logs_ok_iff env "sync: Finished with success"
              (some (rest.map fun s => toString s.port)) msgFuel dirs).mp hw
          · intro _
            rfl
  · intro hok
    rw [create_standalone_replication] at hok ⊢
    cases hrl : repl_loop env primary 1 rest with
    | mk r1 evs1 =>
      rw [hrl] at hok
      cases r1 with
      | error e =>
        exact absurd (by simpa using congrArg id hok : (Except.error e : Except String Unit) = .ok ()) (by simp)
      | ok u =>
        dsimp only at hok ⊢
        rw [hdrop] at hok ⊢
        cases hw : wait_for_a_message_in_logs env dirs "sync: Finished with success"
            (some (rest.map fun s => toString s.port)) msgFuel with
        | error e =>
          rw [hw] at hok
          exact absurd hok (by simp)
        | ok v =>
          have h2 := repl_loop_snd_ok env primary rest 1 (by rw [hrl])
          rw [hrl] at h2
          exact h2
  · intro base hne hcon
    rw [keepDir]
    have hemp : (rest.map fun s => toString s.port).isEmpty = false := by
      cases rest with
      | nil => exact absurd rfl hne
      | cons x xs => rfl
    rw [hemp, hcon]
    rfl

/-- Closed instance of the amended C6 at a concrete one-replica setup. -/
theorem C6_witness :
    (create_standalone_replication envW
      [{ host := "127.0.0.1", port := 7000, pid := -1, is_primary := true },
       { host := "127.0.0.1", port := 7001, pid := -1, is_primary := true }]
      ["cf/7000", "cf/7001"] 2).snd =
      [Ev.replicaOf "127.0.0.1" 7001 "127.0.0.1" 7000] :=
  (C6_standalone_replication envW
      { host := "127.0.0.1", port := 7000, pid := -1, is_primary := true }
      [{ host := "127.0.0.1", port := 7001, pid := -1, is_primary := true }]
      ["cf/7000", "cf/7001"] 2).2.1 (by decide)

theorem start_server_no_cluster_ev (env : Env) (k : Nat) (host : String)
    (port? : Option Nat) (cluster_folder : String) (pidFuel : Nat) :
    ∀ ev ∈ (start_server env k host port? cluster_folder pidFuel).snd,
      isClusterCreateEv ev = false := by
  intro ev hev
  rw [start_server.eq_def] at hev
  cases port? with
  | some p =>
    dsimp only at hev
    by_cases hs : env.spawnOk k = true
    · rw [if_pos hs] at hev
      simp only [List.nil_append, List.mem_cons, List.not_mem_nil, or_false] at hev
      rcases hev with rfl | rfl <;> rfl
    · rw [if_neg hs] at hev
      simp only [List.nil_append, List.mem_cons, List.not_mem_nil, or_false] at hev
      rcases hev with rfl | rfl <;> rfl
  | none =>
    cases hfp : env.freePort k with
    | none =>
      rw [hfp] at hev
      simp at hev
    | some p =>
      rw [hfp] at hev
      dsimp only at hev
      by_cases hs : env.spawnOk k = true
      · rw [if_pos hs] at hev
        simp only [List.cons_append, List.nil_append, List.mem_cons,
          List.not_mem_nil, or_false] at hev
        rcases hev with rfl | rfl | rfl <;> rfl
      · rw [if_neg hs] at hev
        simp only [List.cons_append, List.nil_append, List.mem_cons,
          List.not_mem_nil, or_false] at hev
        rcases hev with rfl | rfl | rfl <;> rfl

theorem launch_initial_no_cluster_ev (env : Env) (host cluster_folder : String)
    (ports? : Option (List Nat)) (pidFuel : Nat) :
    ∀ (cnt i : Nat) (ev : Ev),
    ev ∈ (launch_initial env host cluster_folder ports? pidFuel i cnt).snd →
    isClusterCreateEv ev = false := by
  intro cnt
  induction cnt with
  | zero =>
    intro i ev hev
    simp [launch_initial] at hev
  | succ cnt ih =>
    intro i ev hev
    rw [launch_initial] at hev
    cases hs : start_server env i host (initialPortArg ports? i) cluster_folder pidFuel with
    | mk r evs1 =>
      rw [hs] at hev
      have hevs1 : ∀ e ∈ evs1, isClusterCreateEv e = false := by
        intro e he
        have := start_server_no_cluster_ev env i host (initialPortArg ports? i)
          cluster_folder pidFuel e
        rw [hs] at this
        exact this he
      cases r with
      | error e => exact hevs1 ev hev
      | ok l =>
        cases hrec : launch_initial env host cluster_folder ports? pidFuel (i + 1) cnt with
        | mk r2 evs2 =>
          rw [hrec] at hev
          have hevs2 : ∀ e ∈ evs2, isClusterCreateEv e = false := by
            intro e he
            have := ih (i + 1) e
            rw [hrec] at this
            exact this he
          cases r2 with
          | error e =>
            rcases List.mem_append.mp hev with h1 | h1
            · exact hevs1 ev h1
            · exact hevs2 ev h1
          | ok ls =>
            rcases List.mem_append.mp hev with h1 | h1
            · exact hevs1 ev h1
            · exact hevs2 ev h1

theorem check_servers_loop_no_cluster_ev (env : Env) (host cluster_folder : String)
    (ports? : Option (List Nat)) (pidFuel inUseFuel readyFuel : Nat) :
    ∀ (fuel : Nat) (toCheck ready : List Launched) (k : Nat) (ev : Ev),
    ev ∈ (check_servers_loop env host cluster_folder ports? pidFuel inUseFuel
      readyFuel fuel toCheck ready k).snd →
    isClusterCreateEv ev = false := by
  intro fuel
  induction fuel with
  | zero =>
    intro toCheck ready k ev hev
    cases toCheck with
    | nil => simp [check_servers_loop] at hev
    | cons a as => simp [check_servers_loop] at hev
  | succ fuel ih =>
    intro toCheck ready k ev hev
    cases toCheck with
    | nil => simp [check_servers_loop] at hev
    | cons a as =>
      rw [check_servers_loop] at hev
      split at hev
      · split at hev
        · have : ev = Ev.removeDir ((a :: as).get
              ⟨env.pick fuel % (a :: as).length, Nat.mod_lt _ (Nat.succ_pos as.length)⟩).folder := by
            simpa using hev
          subst this
          rfl
        · split at hev
          · rename_i e evs1 hs
            rcases List.mem_cons.mp hev with rfl | h1
            · rfl
            · have := start_server_no_cluster_ev env k host none cluster_folder pidFuel ev
              rw [hs] at this
              exact this h1
          · rename_i l2 evs1 hs
            split at hev
            rename_i r2 evs2 hrec
            rcases List.mem_cons.mp hev with rfl | h1
            · rfl
            · rcases List.mem_append.mp h1 with h2 | h2
              · have := start_server_no_cluster_ev env k host none cluster_folder pidFuel ev
                rw [hs] at this
                exact this h2
              · have := ih (l2 :: (a :: as).eraseIdx (env.pick fuel % (a :: as).length))
                  ready (k + 1) ev
                rw [hrec] at this
                exact this h2
      · split at hev
        · exact ih _ _ _ ev hev
        · simp at hev

theorem create_servers_no_cluster_ev (env : Env) (host : String) (S R : Nat)
    (ports? : Option (List Nat)) (cluster_folder : String) (tls : Bool)
    (pidFuel inUseFuel readyFuel loopFuel : Nat) :
    ∀ ev ∈ (create_servers env host S R ports? cluster_folder tls pidFuel inUseFuel
      readyFuel loopFuel).snd, isClusterCreateEv ev = false := by
  intro ev hev
  rw [create_servers] at hev
  split at hev
  · rename_i hg
    have : ev = Ev.tlsGenerate := by
      revert hev
      split <;> intro hev <;> simpa using hev
    subst this
    rfl
  · cases hli : launch_initial env host cluster_folder ports? pidFuel 0 (S * (1 + R)) with
    | mk r1 evs1 =>
      rw [hli] at hev
      have hevs1 : ∀ e ∈ evs1, isClusterCreateEv e = false := by
        intro e he
        have := launch_initial_no_cluster_ev env host cluster_folder ports? pidFuel
          (S * (1 + R)) 0 e
        rw [hli] at this
        exact this he
      have htls : ∀ e ∈ (if (tls && should_generate_new_tls_certs env.tls) = true
          then [Ev.tlsGenerate] else []), isClusterCreateEv e = false := by
        intro e he
        split at he
        · have : e = Ev.tlsGenerate := by simpa using he
          subst this
          rfl
        · simp at he
      cases r1 with
      | error e =>
        rcases List.mem_append.mp hev with h1 | h1
        · exact htls ev h1
        · exact hevs1 ev h1
      | ok ls0 =>
        dsimp only at hev
        cases hcl : check_servers_loop env host cluster_folder ports? pidFuel inUseFuel
            readyFuel loopFuel ls0 [] (S * (1 + R)) with
        | mk r2 evs2 =>
          rw [hcl] at hev
          have hevs2 : ∀ e ∈ evs2, isClusterCreateEv e = false := by
            intro e he
            have := check_servers_loop_no_cluster_ev env host cluster_folder ports?
              pidFuel inUseFuel readyFuel loopFuel ls0 [] (S * (1 + R)) e
            rw [hcl] at this
            exact this he
          cases r2 with
          | error e =>
            rcases List.mem_append.mp hev with h1 | h1
            · rcases List.mem_append.mp h1 with h2 | h2
              · exact htls ev h2
              · exact hevs1 ev h2
            · exact hevs2 ev h1
          | ok res =>
            rcases List.mem_append.mp hev with h1 | h1
            · rcases List.mem_append.mp h1 with h2 | h2
              · exact htls ev h2
              · exact hevs1 ev h2
            · exact hevs2 ev h1

theorem repl_loop_no_cluster_ev (env : Env) (primary : Server) :
    ∀ (rest : List Server) (i : Nat) (ev : Ev),
    ev ∈ (repl_loop env primary i rest).snd → isClusterCreateEv ev = false := by
  intro rest
  induction rest with
  | nil => intro i ev hev; simp [repl_loop] at hev
  | cons s ss ih =>
    intro i ev hev
    rw [repl_loop] at hev
    cases hc : env.replCmd i with
    | timedOut =>
      rw [hc] at hev
      have : ev = Ev.replicaOf s.host s.port primary.host primary.port := by simpa using hev
      subst this
      rfl
    | res out err =>
      rw [hc] at hev
      dsimp only at hev
      split at hev
      · have : ev = Ev.replicaOf s.host s.port primary.host primary.port := by simpa using hev
        subst this
        rfl
      · cases hrec : repl_loop env primary (i + 1) ss with
        | mk r evs =>
          rw [hrec] at hev
          dsimp only at hev
          rcases List.mem_cons.mp hev with rfl | h1
          · rfl
          · have := ih (i + 1) ev
            rw [hrec] at this
            exact this h1

theorem create_standalone_snd_eq (env : Env) (primary : Server) (rest : List Server)
    (dirs : List String) (msgFuel : Nat) :
    (create_standalone_replication env (primary :: rest) dirs msgFuel).snd =
      (repl_loop env primary 1 rest).snd := by
  rw [create_standalone_replication]
  cases hrl : repl_loop env primary 1 rest with
  | mk r1 evs1 =>
    cases r1 with
    | error e => rfl
    | ok u =>
      dsimp only
      cases hw : wait_for_a_message_in_logs env dirs "sync: Finished with success"
          (some (((primary :: rest).map fun s => toString s.port).drop 1)) msgFuel with
      | error e => rfl
      | ok v => rfl

theorem repl_loop_head_ev (env : Env) (primary s : Server) (ss : List Server) (i : Nat) :
    Ev.replicaOf s.host s.port primary.host primary.port ∈
      (repl_loop env primary i (s :: ss)).snd := by
  rw [repl_loop]
  cases env.replCmd i with
  | timedOut => simp
  | res out err =>
    dsimp only
    split
    · simp
    · cases hrec : repl_loop env primary (i + 1) ss with
      | mk r evs => simp

theorem create_standalone_no_cluster_ev (env : Env) (servers : List Server)
    (dirs : List String) (msgFuel : Nat) :
    ∀ ev ∈ (create_standalone_replication env servers dirs msgFuel).snd,
      isClusterCreateEv ev = false := by
  intro ev hev
  cases servers with
  | nil => simp [create_standalone_replication] at hev
  | cons primary rest =>
    rw [create_standalone_snd_eq] at hev
    exact repl_loop_no_cluster_ev env primary rest 1 ev hev

/-- C5 counterexample: the claim says shard count S = 1 implies a non-sharded
topology with no cluster-create command.  But the branch in `main` tests the
`--cluster-mode` FLAG, not S: a start invocation with cluster mode on and
S = 1 issues the cluster-create command — and here even succeeds, building a
one-shard cluster. -/
theorem C5_counterexample :
    main_start envC5 true 1 0 none false "127.0.0.1" "cf" 1 1 1 4 2 =
      (.ok [{ host := "127.0.0.1", port := 7000, pid := -1, is_primary := true }],
        [Ev.createFolder "cf", Ev.allocPort 0 7000, Ev.mkNodeDir "cf/7000",
         Ev.spawn 0 7000, Ev.clusterCreate [7000] 0]) ∧
    (main_start envC5 true 1 0 none false "127.0.0.1" "cf" 1 1 1 4 2).snd.any
      isClusterCreateEv = true := by decide

/-- C5 amended: the standalone/cluster dispatch depends on the cluster-mode
flag, not on S = 1.  Without `--cluster-mode` (the only situation in which
the shard count is forced to 1) the topology is non-sharded: no
cluster-create command is ever recorded in the trace, and when R > 0 a
successful start sets replication up via REPLICAOF commands (the trace of a
successful run contains one).  With `--cluster-mode`, S = 1 still goes down
the cluster-create path (see the counterexample). -/
theorem C5_amended :
    (∀ (env : Env) (shard_count replica_count : Nat) (ports? : Option (List Nat))
       (tls : Bool) (host cluster_folder : String)
       (pidFuel inUseFuel readyFuel loopFuel msgFuel : Nat),
      (main_start env false shard_count replica_count ports? tls host cluster_folder
        pidFuel inUseFuel readyFuel loopFuel msgFuel).snd.any isClusterCreateEv = false) ∧
    (∀ (env : Env) (shard_count replica_count : Nat) (ports? : Option (List Nat))
       (tls : Bool) (host cluster_folder : String)
       (pidFuel inUseFuel readyFuel loopFuel msgFuel : Nat),
      0 < replica_count →
      ∀ (servers : List Server) (evs : List Ev),
      main_start env false shard_count replica_count ports? tls host cluster_folder
        pidFuel inUseFuel readyFuel loopFuel msgFuel = (.ok servers, evs) →
      evs.any isReplicaOfEv = true) := by
  constructor
  · intro env shard_count replica_count ports? tls host cluster_folder
      pidFuel inUseFuel readyFuel loopFuel msgFuel
    rw [List.any_eq_false]
    intro ev hev
    rw [Bool.not_eq_true]
    rw [main_start] at hev
    simp only [Bool.false_eq_true, if_false] at hev
    split at hev
    · simp at hev
    · split at hev
      · rename_i e evs1 hcs
        rcases List.mem_cons.mp hev with rfl | h1
        · rfl
        · have := create_servers_no_cluster_ev env host 1 replica_count ports?
            cluster_folder tls pidFuel inUseFuel readyFuel loopFuel ev
          rw [hcs] at this
          exact this h1
      · rename_i servers0 evs1 hcs
        split at hev
        · split at hev
          · rename_i e evs2 hsr
            rcases List.mem_cons.mp hev with rfl | h1
            · rfl
            · rcases List.mem_append.mp h1 with h2 | h2
              · have := create_servers_no_cluster_ev env host 1 replica_count ports?
                  cluster_folder tls pidFuel inUseFuel readyFuel loopFuel ev
                rw [hcs] at this
                exact this h2
              · have := create_standalone_no_cluster_ev env servers0
                  (dirs_of_events evs1) msgFuel ev
                rw [hsr] at this
                exact this h2
          · rename_i u evs2 hsr
            rcases List.mem_cons.mp hev with rfl | h1
            · rfl
            · rcases List.mem_append.mp h1 with h2 | h2
              · have := create_servers_no_cluster_ev env host 1 replica_count ports?
                  cluster_folder tls pidFuel inUseFuel readyFuel loopFuel ev
                rw [hcs] at this
                exact this h2
              · have := create_standalone_no_cluster_ev env servers0
                  (dirs_of_events evs1) msgFuel ev
                rw [hsr] at this
                exact this h2
        · rcases List.mem_cons.mp hev with rfl | h1
          · rfl
          · have := create_servers_no_cluster_ev env host 1 replica_count ports?
              cluster_folder tls pidFuel inUseFuel readyFuel loopFuel ev
            rw [hcs] at this
            exact this h1
  · intro env shard_count replica_count ports? tls host cluster_folder
      pidFuel inUseFuel readyFuel loopFuel msgFuel hR servers evs h
    rw [main_start] at h
    simp only [Bool.false_eq_true, if_false] at h
    by_cases hpm : portsLenMismatch ports? (1 * (1 + replica_count)) = true
    · rw [if_pos hpm] at h
      exact absurd (congrArg Prod.fst h) (by simp)
    · rw [if_neg hpm] at h
      cases hcs : create_servers env host 1 replica_count ports? cluster_folder tls
          pidFuel inUseFuel readyFuel loopFuel with
      | mk r1 evs1 =>
        rw [hcs] at h
        cases r1 with
        | error e => exact absurd (congrArg Prod.fst h) (by simp)
        | ok servers0 =>
          dsimp only at h
          rw [if_pos hR] at h
          split at h
          · exact absurd (congrArg Prod.fst h) (by simp)
          · rename_i u evs2 hsr
            have hevs : Ev.createFolder cluster_folder :: (evs1 ++ evs2) = evs :=
              congrArg Prod.snd h
            obtain ⟨ls, hmap, hlen, -, -⟩ :=
              create_servers_ok env host 1 replica_count ports? cluster_folder tls
                pidFuel inUseFuel readyFuel loopFuel servers0 evs1 hcs
            have hlen0 : servers0.length = 1 + replica_count := by
              rw [hmap, List.length_map, hlen, Nat.one_mul]
            cases servers0 with
            | nil =>
              simp only [List.length_nil] at hlen0
              omega
            | cons p rest =>
              cases rest with
              | nil =>
                simp only [List.length_cons, List.length_nil] at hlen0
                omega
              | cons s ss =>
                have hmem : Ev.replicaOf s.host s.port p.host p.port ∈ evs2 := by
                  have h3 := create_standalone_snd_eq env p (s :: ss)
                    (dirs_of_events evs1) msgFuel
                  rw [hsr] at h3
                  dsimp only at h3
                  rw [h3]
                  exact repl_loop_head_ev env p s ss 1
                rw [← hevs, List.any_eq_true]
                exact ⟨Ev.replicaOf s.host s.port p.host p.port,
                  by simp [hmem], rfl⟩

/-- Closed instance of the amended C5: a non-cluster-mode start records no
cluster-create command, and its successful run with R = 1 records a
REPLICAOF command. -/
theorem C5_witness :
    (main_start envW false 3 1 none false "127.0.0.1" "cf" 1 1 1 4 2).snd.any
      isClusterCreateEv = false ∧
    ([Ev.createFolder "cf", Ev.allocPort 0 7000, Ev.mkNodeDir "cf/7000",
      Ev.spawn 0 7000, Ev.allocPort 1 7001, Ev.mkNodeDir "cf/7001",
      Ev.spawn 1 7001, Ev.replicaOf "127.0.0.1" 7001 "127.0.0.1" 7000].any
      isReplicaOfEv) = true :=
  ⟨C5_amended.1 envW 3 1 none false "127.0.0.1" "cf" 1 1 1 4 2,
   C5_amended.2 envW 3 1 none false "127.0.0.1" "cf" 1 1 1 4 2 (by decide)
     [{ host := "127.0.0.1", port := 7000, pid := -1, is_primary := true },
      { host := "127.0.0.1", port := 7001, pid := -1, is_primary := true }]
     [Ev.createFolder "cf", Ev.allocPort 0 7000, Ev.mkNodeDir "cf/7000",
      Ev.spawn 0 7000, Ev.allocPort 1 7001, Ev.mkNodeDir "cf/7001",
      Ev.spawn 1 7001, Ev.replicaOf "127.0.0.1" 7001 "127.0.0.1" 7000]
     (by decide)⟩
